import Mathlib

/-! SQL tunnel service (`Express/server.js`): a shallow embedding

The request handlers of `server.js` are translated into pure functions.
* A request body field is a `JsVal` (a JSON value, or `undefined` when omitted).
* The global `pool` and what happened to it are a `World`: the pool (or `null`)
  with its in-use count, and the log of driver calls made so far.
* What the database driver answers during one request is a `Driver` record:
  the outcome of `pool.getConnection()`, of `connection.query(sql)` and of
  `connection.execute(sql, params)`, each either a value or a thrown error.
* A handler returns an `Outcome` (the response sent, or the exception that
  escaped the handler) together with the new `World`.
-/

namespace TunnelServer

/-! ## JavaScript values -/

/-- JSON values as they arrive in `req.body`; `undefined` is an omitted field.
Numbers are the integer-valued ones (truthiness only depends on being zero). -/
inductive JsVal where
  | undefined
  | null
  | bool (b : Bool)
  | num (n : Int)
  | str (s : String)
  | arr (items : List JsVal)
  | obj (fields : List (String × JsVal))

/-- JavaScript `ToBoolean`, as used by `!query`. -/
def JsVal.truthy : JsVal → Bool
  | .undefined => false
  | .null => false
  | .bool b => b
  | .num n => n != 0
  | .str s => s != ""
  | .arr _ => true
  | .obj _ => true

/-- JavaScript `Array.isArray(v)`. -/
def JsVal.isArray : JsVal → Bool
  | .arr _ => true
  | _ => false

/-- Code points removed by `String.prototype.trim` (WhiteSpace and LineTerminator). -/
def isJsWhiteSpace (c : Char) : Bool :=
  let n := c.toNat
  n == 0x09 || n == 0x0A || n == 0x0B || n == 0x0C || n == 0x0D || n == 0x20 ||
  n == 0xA0 || n == 0x1680 || (0x2000 ≤ n && n ≤ 0x200A) || n == 0x2028 ||
  n == 0x2029 || n == 0x202F || n == 0x205F || n == 0x3000 || n == 0xFEFF

/-- Leading white space removed. -/
def trimStart (cs : List Char) : List Char :=
  cs.dropWhile isJsWhiteSpace

/-- Trailing white space removed. -/
def trimEnd (cs : List Char) : List Char :=
  (cs.reverse.dropWhile isJsWhiteSpace).reverse

/-- JavaScript `s.trim()`. -/
def jsTrim (s : String) : String :=
  ⟨trimEnd (trimStart s.data)⟩

/-- Number of UTF-16 code units of one code point. -/
def utf16Units (c : Char) : Nat :=
  if c.toNat < 0x10000 then 1 else 2

/-- JavaScript `s.length`: the number of UTF-16 code units. -/
def jsLength (s : String) : Nat :=
  (s.data.map utf16Units).sum

/-- JavaScript `v || d` for a string-or-undefined `v`: the empty string is falsy. -/
def orDefault (v : Option String) (d : String) : String :=
  match v with
  | some s => if s = "" then d else s
  | none => d

/-! ## Environment, driver and responses -/

/-- The process environment, `process.env`. -/
abbrev ProcessEnv := String → Option String

/-- A template substitution of `process.env.X`: an unset variable prints as `undefined`. -/
def envText (env : ProcessEnv) (name : String) : String :=
  match env name with
  | some v => v
  | none => "undefined"

/-- An error thrown by the driver: `error.code` and `error.message`, either possibly absent. -/
structure DbError where
  code : Option String
  message : Option String

/-- What the driver returns for a statement: an array of rows, or a result header. -/
inductive DriverResult where
  | rows (rs : List JsVal)
  | header (affectedRows : Option Nat)

/-- The answers of the driver during one request. -/
structure Driver where
  getConnection : Except DbError Unit
  query : String → Except DbError DriverResult
  execute : String → List JsVal → Except DbError DriverResult

/-- A JSON response: the HTTP status and the fields of the body (absent fields are `none`,
`timestamp` records whether the field is present). -/
structure Response where
  status : Nat
  success : Bool
  error : Option String := none
  message : Option String := none
  details : Option String := none
  code : Option String := none
  data : Option DriverResult := none
  rowCount : Option Nat := none
  requestId : Option Nat := none
  timestamp : Bool := false

/-- An exception that escapes a handler. -/
inductive JsException where
  | typeError (msg : String)

/-- How a handler ends: a response was sent, or an exception left the handler. -/
inductive Outcome where
  | responded (r : Response)
  | threw (e : JsException)

/-- Calls made to the driver, in order. -/
inductive Event where
  | acquire
  | runQuery (sql : String)
  | runExecute (sql : String) (params : List JsVal)
  | release
  | ping

/-- The connection pool: the number of connections currently leased. -/
structure Pool where
  inUse : Nat

/-- The global `pool` (`none` while it is `null`) and the log of driver calls. -/
structure World where
  pool : Option Pool
  log : List Event

/-- Effect of a successful `pool.getConnection()`. -/
def World.lease (w : World) : World :=
  { pool := w.pool.map (fun p => { inUse := p.inUse + 1 }), log := w.log ++ [Event.acquire] }

/-- Effect of `connection.release()`. -/
def World.unlease (w : World) : World :=
  { pool := w.pool.map (fun p => { inUse := p.inUse - 1 }), log := w.log ++ [Event.release] }

/-- Appends a driver call to the log. -/
def World.record (w : World) (e : Event) : World :=
  { w with log := w.log ++ [e] }

/-! ## `POST /api/query` -/

/-- The validation responses of both query endpoints: `res.status(400).json(...)`. -/
def badRequest (requestId : Nat) (msg : String) : Response :=
  { status := 400, success := false, error := some "Bad Request", message := some msg,
    requestId := some requestId }

/-- Input validation of `/api/query` (server.js 124-165): the 400 response of the first
failing check, or the trimmed query. -/
def validateQuery (requestId : Nat) (query : JsVal) : Except Response String :=
  if !query.truthy then
    .error (badRequest requestId "Missing required parameter: 'query'")
  else
    match query with
    | .str s =>
      let trimmedQuery := jsTrim s
      if jsLength trimmedQuery = 0 then
        .error (badRequest requestId "Query cannot be empty")
      else if jsLength trimmedQuery > 100000 then
        .error (badRequest requestId "Query exceeds maximum allowed length (100,000 characters)")
      else
        .ok trimmedQuery
    | _ => .error (badRequest requestId "Query must be a string")

/-- The `rowCount` of a success response:
`Array.isArray(results) ? results.length : (results.affectedRows || 0)`. -/
def rowCountOf : DriverResult → Nat
  | .rows rs => rs.length
  | .header (some n) => n
  | .header none => 0

/-- The 200 response of `/api/query` and `/api/query-safe`. -/
def successResponse (requestId : Nat) (results : DriverResult) : Response :=
  { status := 200, success := true, data := some results,
    message := some "Query executed successfully", rowCount := some (rowCountOf results),
    requestId := some requestId, timestamp := true }

/-- The 503 response when `pool` is `null`. -/
def poolMissing (requestId : Nat) : Response :=
  { status := 503, success := false, error := some "Service Unavailable",
    message := some "Database connection pool not initialized", requestId := some requestId }

/-- The `catch` block of `/api/query` (server.js 200-350). -/
def queryCatch (env : ProcessEnv) (requestId : Nat) (error : DbError) : Response :=
  let errorCode := orDefault error.code "UNKNOWN_ERROR"
  let errorMessage := orDefault error.message "Unknown database error"
  if errorCode = "ER_ACCESS_DENIED_ERROR" then
    { status := 401, success := false, error := some "Authentication Failed",
      message := some "Database authentication failed. Check DB_USER and DB_PASSWORD in .env",
      requestId := some requestId, timestamp := true }
  else if errorCode = "ER_BAD_DB_ERROR" then
    { status := 404, success := false, error := some "Database Not Found",
      message := some ("Database '" ++ envText env "DB_NAME" ++ "' does not exist"),
      requestId := some requestId, timestamp := true }
  else if errorCode = "ER_SYNTAX_ERROR" || errorCode = "ER_PARSE_ERROR" then
    { status := 400, success := false, error := some "SQL Syntax Error",
      message := some "The SQL query contains syntax errors", details := some errorMessage,
      requestId := some requestId, timestamp := true }
  else if errorCode = "ER_NO_SUCH_TABLE" then
    { status := 404, success := false, error := some "Table Not Found",
      message := some "One or more tables referenced in the query do not exist",
      details := some errorMessage, requestId := some requestId, timestamp := true }
  else if errorCode = "ER_BAD_FIELD_ERROR" then
    { status := 400, success := false, error := some "Invalid Column",
      message := some "One or more columns referenced in the query do not exist",
      details := some errorMessage, requestId := some requestId, timestamp := true }
  else if error.code = some "ECONNREFUSED" then
    { status := 503, success := false, error := some "Database Connection Failed",
      message := some ("Cannot connect to database server at " ++ envText env "DB_HOST" ++ ":" ++
        envText env "DB_PORT" ++ ". Ensure the database server is running."),
      requestId := some requestId, timestamp := true }
  else if error.code = some "ENOTFOUND" then
    { status := 503, success := false, error := some "Database Host Not Found",
      message := some ("Cannot resolve database host: " ++ envText env "DB_HOST"),
      requestId := some requestId, timestamp := true }
  else if errorCode = "PROTOCOL_CONNECTION_LOST" then
    { status := 503, success := false, error := some "Connection Lost",
      message := some "Database connection was lost during query execution",
      requestId := some requestId, timestamp := true }
  else if errorCode = "PROTOCOL_ENQUEUE_AFTER_FATAL_ERROR" then
    { status := 503, success := false, error := some "Fatal Database Error",
      message := some "A fatal database error occurred. Please try again.",
      requestId := some requestId, timestamp := true }
  else if errorCode = "PROTOCOL_TIMEOUT" then
    { status := 504, success := false, error := some "Query Timeout",
      message := some "Query execution took too long and was terminated",
      requestId := some requestId, timestamp := true }
  else if errorCode = "ER_TOO_BIG_SELECT" then
    { status := 413, success := false, error := some "Result Set Too Large",
      message := some "The query result set is too large. Consider adding LIMIT clause.",
      requestId := some requestId, timestamp := true }
  else
    { status := 500, success := false, error := some "Database Error",
      message := some errorMessage, code := some errorCode,
      requestId := some requestId, timestamp := true }

/-- The `finally` block of both query handlers: `if (connection) connection.release()`. -/
def finallyRelease (connection : Option Unit) (w : World) : World :=
  match connection with
  | some _ => w.unlease
  | none => w

/-- The `try` block of `/api/query` (server.js 169-197): what it returns or throws, the
value of `connection` when it is left, and the world. -/
def queryTry (drv : Driver) (requestId : Nat) (trimmedQuery : String) (w : World) :
    Except DbError Response × Option Unit × World :=
  match w.pool with
  | none => (.ok (poolMissing requestId), none, w)
  | some _ =>
    match drv.getConnection with
    | .error e => (.error e, none, w)
    | .ok c =>
      let w1 := w.lease
      let w2 := w1.record (Event.runQuery trimmedQuery)
      match drv.query trimmedQuery with
      | .error e => (.error e, some c, w2)
      | .ok results => (.ok (successResponse requestId results), some c, w2)

/-- The handler of `POST /api/query` (server.js 118-363). -/
def apiQuery (env : ProcessEnv) (drv : Driver) (requestId : Nat) (query : JsVal) (w : World) :
    Outcome × World :=
  match validateQuery requestId query with
  | .error resp => (.responded resp, w)
  | .ok trimmedQuery =>
    match queryTry drv requestId trimmedQuery w with
    | (.ok resp, connection, w1) => (.responded resp, finallyRelease connection w1)
    | (.error e, connection, w1) =>
      (.responded (queryCatch env requestId e), finallyRelease connection w1)

/-! ## `POST /api/query-safe` -/

/-- Input validation of `/api/query-safe` (server.js 372-403). After the two guards the
handler evaluates `query.trim()`, which throws a `TypeError` when `query` is not a string
(no JSON value other than a string has a callable `trim`). -/
def validateQuerySafe (requestId : Nat) (query params : JsVal) :
    Except Outcome (String × List JsVal) :=
  if !query.truthy then
    .error (.responded (badRequest requestId "Missing required parameter: 'query'"))
  else
    match params with
    | .arr ps =>
      match query with
      | .str s =>
        let trimmedQuery := jsTrim s
        if jsLength trimmedQuery = 0 then
          .error (.responded (badRequest requestId "Query cannot be empty"))
        else
          .ok (trimmedQuery, ps)
      | _ => .error (.threw (.typeError "query.trim is not a function"))
    | _ => .error (.responded (badRequest requestId "Parameters must be an array"))

/-- The `catch` block of `/api/query-safe` (server.js 435-485). -/
def safeCatch (env : ProcessEnv) (requestId : Nat) (error : DbError) : Response :=
  let errorCode := orDefault error.code "UNKNOWN_ERROR"
  let errorMessage := orDefault error.message "Unknown database error"
  if errorCode = "ER_ACCESS_DENIED_ERROR" then
    { status := 401, success := false, error := some "Authentication Failed",
      message := some "Database authentication failed", requestId := some requestId }
  else if errorCode = "ER_BAD_DB_ERROR" then
    { status := 404, success := false, error := some "Database Not Found",
      message := some ("Database '" ++ envText env "DB_NAME" ++ "' does not exist"),
      requestId := some requestId }
  else if errorCode = "ER_SYNTAX_ERROR" || errorCode = "ER_PARSE_ERROR" then
    { status := 400, success := false, error := some "SQL Syntax Error",
      message := some "The SQL query contains syntax errors", details := some errorMessage,
      requestId := some requestId }
  else if error.code = some "ECONNREFUSED" then
    { status := 503, success := false, error := some "Database Connection Failed",
      message := some ("Cannot connect to database server at " ++ envText env "DB_HOST" ++ ":" ++
        envText env "DB_PORT"),
      requestId := some requestId }
  else
    { status := 500, success := false, error := some "Database Error",
      message := some errorMessage, code := some errorCode, requestId := some requestId }

/-- The `try` block of `/api/query-safe` (server.js 407-433). -/
def safeTry (drv : Driver) (requestId : Nat) (trimmedQuery : String) (params : List JsVal)
    (w : World) : Except DbError Response × Option Unit × World :=
  match w.pool with
  | none => (.ok (poolMissing requestId), none, w)
  | some _ =>
    match drv.getConnection with
    | .error e => (.error e, none, w)
    | .ok c =>
      let w1 := w.lease
      let w2 := w1.record (Event.runExecute trimmedQuery params)
      match drv.execute trimmedQuery params with
      | .error e => (.error e, some c, w2)
      | .ok results => (.ok (successResponse requestId results), some c, w2)

/-- The handler of `POST /api/query-safe` (server.js 366-497). -/
def apiQuerySafe (env : ProcessEnv) (drv : Driver) (requestId : Nat) (query params : JsVal)
    (w : World) : Outcome × World :=
  match validateQuerySafe requestId query params with
  | .error out => (out, w)
  | .ok (trimmedQuery, ps) =>
    match safeTry drv requestId trimmedQuery ps w with
    | (.ok resp, connection, w1) => (.responded resp, finallyRelease connection w1)
    | (.error e, connection, w1) =>
      (.responded (safeCatch env requestId e), finallyRelease connection w1)

/-! ## The error table of the specification and auxiliary notions -/

/-- The table of section 4.5 of the specification, written from its rows: each mapped
driver code with its HTTP status and category. -/
def specErrorRows : List (String × Nat × String) :=
  [("ER_ACCESS_DENIED_ERROR", 401, "Authentication Failed"),
   ("ER_BAD_DB_ERROR", 404, "Database Not Found"),
   ("ER_SYNTAX_ERROR", 400, "SQL Syntax Error"),
   ("ER_PARSE_ERROR", 400, "SQL Syntax Error"),
   ("ER_NO_SUCH_TABLE", 404, "Table Not Found"),
   ("ER_BAD_FIELD_ERROR", 400, "Invalid Column"),
   ("ECONNREFUSED", 503, "Database Connection Failed"),
   ("ENOTFOUND", 503, "Database Host Not Found"),
   ("PROTOCOL_CONNECTION_LOST", 503, "Connection Lost"),
   ("PROTOCOL_ENQUEUE_AFTER_FATAL_ERROR", 503, "Fatal Database Error"),
   ("PROTOCOL_TIMEOUT", 504, "Query Timeout"),
   ("ER_TOO_BIG_SELECT", 413, "Result Set Too Large")]

/-- The driver codes that have a row in the table. -/
def mappedCodes : List String :=
  specErrorRows.map (fun row => row.1)

/-- The rejection condition of section 4.3 and property 4 of section 8, written from the
specification: `query` is omitted, is not a string, is empty after trimming, or exceeds
100,000 characters after trimming. -/
def specRejects (query : JsVal) : Bool :=
  match query with
  | .undefined => true
  | .str s => jsLength (jsTrim s) == 0 || decide (100000 < jsLength (jsTrim s))
  | _ => true

/-- The `try` block of `/api/query` throws `e`: leasing the connection throws it, or the
lease succeeds and `connection.query(sql)` throws it. -/
def Driver.queryThrows (drv : Driver) (sql : String) (e : DbError) : Prop :=
  drv.getConnection = .error e ∨ (drv.getConnection = .ok () ∧ drv.query sql = .error e)

/-- The `try` block of `/api/query-safe` throws `e`. -/
def Driver.executeThrows (drv : Driver) (sql : String) (ps : List JsVal) (e : DbError) : Prop :=
  drv.getConnection = .error e ∨ (drv.getConnection = .ok () ∧ drv.execute sql ps = .error e)

/-- A pool is initialised with `n` connections leased and nothing logged yet. -/
def World.start (n : Nat) : World :=
  { pool := some { inUse := n }, log := [] }

/-- A driver whose lease succeeds and whose statements all throw `e`. -/
def Driver.failing (e : DbError) : Driver :=
  { getConnection := .ok (), query := fun _ => .error e, execute := fun _ _ => .error e }

/-- A driver whose lease succeeds and whose statements all return `r`. -/
def Driver.returning (r : DriverResult) : Driver :=
  { getConnection := .ok (), query := fun _ => .ok r, execute := fun _ _ => .ok r }

/-- An environment with the database variables set. -/
def sampleEnv : ProcessEnv := fun name =>
  if name = "DB_NAME" then some "airport"
  else if name = "DB_HOST" then some "localhost"
  else if name = "DB_PORT" then some "3306"
  else none

/-! ## `GET /health` -/

/-- The answers of the driver during one health check: the outcome of
`pool.getConnection()` and of `connection.ping()`. -/
structure Probe where
  getConnection : Except DbError Unit
  ping : Except DbError Unit

/-- The 503 response of `/health` when `pool` is `null` (server.js 90-95). -/
def healthNoPool : Response :=
  { status := 503, success := false, error := some "Database pool not initialized" }

/-- The 200 response of `/health` (server.js 101-105). -/
def healthOk : Response :=
  { status := 200, success := true,
    message := some "Server and database connection are healthy", timestamp := true }

/-- The `catch` block of `/health` (server.js 106-114): `message` is `error.message`. -/
def healthCatch (error : DbError) : Response :=
  { status := 503, success := false, error := some "Database connection unhealthy",
    message := error.message, timestamp := true }

/-- The `try` block of `/health` (server.js 89-105). The handler has no `finally`:
`connection.release()` is the statement after `await connection.ping()`. -/
def healthTry (pr : Probe) (w : World) : Except DbError Response × World :=
  match w.pool with
  | none => (.ok healthNoPool, w)
  | some _ =>
    match pr.getConnection with
    | .error e => (.error e, w)
    | .ok _ =>
      let w1 := w.lease
      let w2 := w1.record Event.ping
      match pr.ping with
      | .error e => (.error e, w2)
      | .ok _ => (.ok healthOk, w2.unlease)

/-- The handler of `GET /health` (server.js 88-115). -/
def health (pr : Probe) (w : World) : Outcome × World :=
  match healthTry pr w with
  | (.ok resp, w1) => (.responded resp, w1)
  | (.error e, w1) => (.responded (healthCatch e), w1)

/-! ## Startup check and error middleware -/

/-- The constant `requiredEnvVars` (server.js 10). -/
def requiredEnvVars : List String :=
  ["DB_HOST", "DB_USER", "DB_PASSWORD", "DB_NAME", "SERVER_PORT"]

/-- JavaScript `ToBoolean` of `process.env[name]`: unset and the empty string are falsy. -/
def envTruthy (v : Option String) : Bool :=
  match v with
  | some s => s != ""
  | none => false

/-- The constant `missingEnvVars` (server.js 11):
`requiredEnvVars.filter(envVar => !process.env[envVar])`. -/
def missingEnvVars (env : ProcessEnv) : List String :=
  requiredEnvVars.filter (fun envVar => !envTruthy (env envVar))

/-- The startup check (server.js 13-17): the diagnostic printed and the exit status when
the process exits, `none` when startup continues. -/
def envCheck (env : ProcessEnv) : Option (String × Nat) :=
  if (missingEnvVars env).length > 0 then
    some ("ERROR: Missing required environment variables: " ++
      ", ".intercalate (missingEnvVars env), 1)
  else
    none

/-- The error-handling middleware (server.js 76-85). -/
def errorMiddleware (env : ProcessEnv) (err : DbError) : Response :=
  { status := 500, success := false, error := some "Internal Server Error",
    message := if env "NODE_ENV" = some "development" then err.message
      else some "An unexpected error occurred",
    timestamp := true }

/-! ## Routing and the 404 handler -/

/-- The part of an HTTP request that the middleware stack looks at: `req.method`, `req.path`,
and whether the body parsers accept the body (`false` for malformed JSON, for instance). -/
structure Request where
  method : String
  path : String
  bodyParses : Bool

/-- The response of the 404 handler: the status and the fields of the body. -/
structure NotFoundResponse where
  status : Nat
  success : Bool
  error : String
  message : String
  availableEndpoints : List String

/-- The 404 handler, registered after the three routes (server.js 500-512). -/
def notFound (req : Request) : NotFoundResponse :=
  { status := 404, success := false, error := "Not Found",
    message := "Endpoint " ++ req.method ++ " " ++ req.path ++ " does not exist",
    availableEndpoints := ["GET /health", "POST /api/query", "POST /api/query-safe"] }

/-- What answers a request: the CORS middleware (status 204), the error-handling middleware
(status 500), one of the three route handlers, or the 404 handler with its response. -/
inductive Served where
  | preflight
  | bodyError
  | health
  | query
  | querySafe
  | notFound (r : NotFoundResponse)

/-- Lower case of an ASCII letter; route paths are compared without regard to case. -/
def asciiLower (c : Char) : Char :=
  if 65 ≤ c.toNat ∧ c.toNat ≤ 90 then Char.ofNat (c.toNat + 32) else c

/-- Whether a route path matches `req.path` with the routing defaults of Express: the
comparison ignores case and allows one trailing slash. -/
def pathMatches (route path : String) : Bool :=
  path.data.map asciiLower == route.data || path.data.map asciiLower == route.data ++ ['/']

/-- Whether a route registered with `app.get` or `app.post` handles a request: the method is
the route's, or it is HEAD and the route is a GET route, and the path matches. -/
def routeMatches (method route : String) (req : Request) : Bool :=
  (req.method == method || (method == "GET" && req.method == "HEAD")) &&
    pathMatches route req.path

/-- The middleware stack of `server.js` in registration order: `cors()` (line 35), which
answers every OPTIONS request itself; the body parsers (36-37), whose error goes to the
error-handling middleware (76-85); `app.get('/health')`, `app.post('/api/query')`,
`app.post('/api/query-safe')`; then the catch-all `app.use` of the 404 handler (500-512). -/
def serve (req : Request) : Served :=
  if req.method == "OPTIONS" then .preflight
  else if !req.bodyParses then .bodyError
  else if routeMatches "GET" "/health" req then .health
  else if routeMatches "POST" "/api/query" req then .query
  else if routeMatches "POST" "/api/query-safe" req then .querySafe
  else .notFound (notFound req)

/-! ## `startServer` -/

/-- The answers of the driver during startup: the outcome of `initializePool()`, of the
smoke test's `pool.getConnection()` and of each `connection.query(sql)`. -/
structure Boot where
  initializePool : Except DbError Unit
  getConnection : Except DbError Unit
  query : String → Except DbError DriverResult

/-- The constant `createTableQuery` (server.js 526-532). -/
def createTableQuery : String :=
  "\n        CREATE TABLE IF NOT EXISTS sample_test (\n          id INT AUTO_INCREMENT PRIMARY KEY,\n          test_name VARCHAR(100),\n          created_at TIMESTAMP DEFAULT CURRENT_TIMESTAMP\n        )\n      "

/-- The constant `countQuery` (server.js 536). -/
def countQuery : String :=
  "SELECT COUNT(*) as cnt FROM sample_test"

/-- The constant `insertQuery` (server.js 540-545). -/
def insertQuery : String :=
  "\n          INSERT INTO sample_test (test_name) VALUES \n          ('Database Connection Test'),\n          ('AirportSys Database'),\n          ('MariaDB Server Active')\n        "

/-- The constant `testQuery` (server.js 550). -/
def testQuery : String :=
  "SELECT * FROM sample_test ORDER BY created_at DESC LIMIT 5"

/-- The test `countResult[0].cnt === 0` (server.js 539); it throws a `TypeError` when
`countResult[0]` is `undefined` or `null`. -/
def countIsZero : DriverResult → Except DbError Bool
  | .rows (.obj fields :: _) =>
    match fields.lookup "cnt" with
    | some (.num n) => .ok (n == 0)
    | _ => .ok false
  | .rows (.undefined :: _) =>
    .error ⟨none, some "Cannot read properties of undefined (reading 'cnt')"⟩
  | .rows (.null :: _) =>
    .error ⟨none, some "Cannot read properties of null (reading 'cnt')"⟩
  | .rows (_ :: _) => .ok false
  | .rows [] => .error ⟨none, some "Cannot read properties of undefined (reading 'cnt')"⟩
  | .header _ => .error ⟨none, some "Cannot read properties of undefined (reading 'cnt')"⟩

/-- The seeding step of the smoke test (server.js 539-547). -/
def smokeSeed (b : Boot) (isZero : Bool) (w : World) : Except DbError Unit × World :=
  if isZero then
    match b.query insertQuery with
    | .error e => (.error e, w.record (Event.runQuery insertQuery))
    | .ok _ => (.ok (), w.record (Event.runQuery insertQuery))
  else
    (.ok (), w)

/-- The `try` block of the smoke test (server.js 522-561): whether it completes or throws,
the value of `connection` when it is left, and the world. -/
def smokeTry (b : Boot) (w : World) : Except DbError Unit × Option Unit × World :=
  match b.getConnection with
  | .error e => (.error e, none, w)
  | .ok c =>
    let w1 := (w.lease).record (Event.runQuery createTableQuery)
    match b.query createTableQuery with
    | .error e => (.error e, some c, w1)
    | .ok _ =>
      let w2 := w1.record (Event.runQuery countQuery)
      match b.query countQuery with
      | .error e => (.error e, some c, w2)
      | .ok countResult =>
        match countIsZero countResult with
        | .error e => (.error e, some c, w2)
        | .ok isZero =>
          match smokeSeed b isZero w2 with
          | (.error e, w3) => (.error e, some c, w3)
          | (.ok _, w3) =>
            let w4 := w3.record (Event.runQuery testQuery)
            match b.query testQuery with
            | .error e => (.error e, some c, w4)
            | .ok _ => (.ok (), some c, w4)

/-- How `startServer` ends: `app.listen` is called, or the process exits. -/
inductive BootOutcome where
  | listening
  | exited (status : Nat)

/-- The function `startServer` (server.js 515-580). A failing `initializePool` exits with
status 1; otherwise the pool exists with no connection leased, the smoke test runs inside
`try`/`catch`/`finally` (the `catch` only logs, the `finally` releases the connection if one
was leased), and `app.listen` follows. -/
def startServer (b : Boot) (w : World) : BootOutcome × World :=
  match b.initializePool with
  | .error _ => (.exited 1, w)
  | .ok _ =>
    let w0 : World := { pool := some { inUse := 0 }, log := w.log }
    match smokeTry b w0 with
    | (.ok _, connection, w1) => (.listening, finallyRelease connection w1)
    | (.error _, connection, w1) => (.listening, finallyRelease connection w1)

/-- The port the server listens on. -/
inductive Port where
  | fromEnv (value : String)
  | default3001

/-- The constant `SERVER_PORT` (server.js 32): `process.env.SERVER_PORT || 3001`. -/
def serverPort (env : ProcessEnv) : Port :=
  match env "SERVER_PORT" with
  | some s => if s = "" then .default3001 else .fromEnv s
  | none => .default3001

/-- The top of the module (server.js 9-32): the startup check exits with its diagnostic and
status, or the constants are defined. -/
def moduleTop (env : ProcessEnv) : Except (String × Nat) Port :=
  match envCheck env with
  | some exit => .error exit
  | none => .ok (serverPort env)

/-! ## The client API layer (`apis/dbApi.js`) -/

/-- A JavaScript error caught by the client: its `message`, possibly absent. -/
structure ClientError where
  message : Option String

/-- What `fetch` followed by `response.json()` yields: `fetch` rejects, `response.json()`
rejects, or the JSON body of a response of the tunnel service. -/
inductive FetchOutcome where
  | networkError (e : ClientError)
  | notJson (e : ClientError)
  | json (body : Response)

/-- A request sent by `queryDB`: the URL and the fields of the JSON body (`params` is
`undefined` when the body has no such field). -/
structure ClientRequest where
  url : String
  query : JsVal
  params : JsVal

/-- The constant `SERVER_URL` (dbApi.js 2). -/
def SERVER_URL : String :=
  "http://localhost:8888"

/-- The default value of the parameter `params = null`. -/
def paramsOrNull : JsVal → JsVal
  | .undefined => .null
  | v => v

/-- The endpoint and the body that `queryDB` builds (dbApi.js 7-16). -/
def clientRequest (sql : String) (params : JsVal) : ClientRequest :=
  if (paramsOrNull params).truthy then
    { url := SERVER_URL ++ "/api/query-safe", query := .str sql, params := paramsOrNull params }
  else
    { url := SERVER_URL ++ "/api/query", query := .str sql, params := .undefined }

/-- The value `queryDB` resolves to: the body of the response, or the object
`{success: false, error: error.message, data: null}` built by its `catch`. -/
inductive ClientResult where
  | body (r : Response)
  | failure (error : Option String)

/-- The field `result.success`. -/
def ClientResult.success : ClientResult → Bool
  | .body r => r.success
  | .failure _ => false

/-- The field `result.data` (`none` for `null` and for an absent field). -/
def ClientResult.data : ClientResult → Option DriverResult
  | .body r => r.data
  | .failure _ => none

/-- The field `result.rowCount` (`none` when absent). -/
def ClientResult.rowCount : ClientResult → Option Nat
  | .body r => r.rowCount
  | .failure _ => none

/-- The `try` block of `queryDB` (dbApi.js 6-24): the body when `data.success` is truthy,
otherwise it throws `new Error(data.message || data.error || 'Query failed')`. -/
def queryDBTry (fetch : ClientRequest → FetchOutcome) (sql : String) (params : JsVal) :
    Except ClientError ClientResult :=
  match fetch (clientRequest sql params) with
  | .networkError e => .error e
  | .notJson e => .error e
  | .json data =>
    if !data.success then
      .error ⟨some (orDefault data.message (orDefault data.error "Query failed"))⟩
    else
      .ok (.body data)

/-- The function `queryDB` (dbApi.js 5-33): the promise resolves (`.ok`) or rejects. -/
def queryDB (fetch : ClientRequest → FetchOutcome) (sql : String) (params : JsVal) :
    Except ClientError ClientResult :=
  match queryDBTry fetch sql params with
  | .ok data => .ok data
  | .error error => .ok (.failure error.message)

/-- The function `selectQuery` (dbApi.js 52-55). -/
def selectQuery (fetch : ClientRequest → FetchOutcome) (sql : String) (params : JsVal) :
    Except ClientError (Option DriverResult) :=
  match queryDB fetch sql params with
  | .error e => .error e
  | .ok result => .ok (if result.success then result.data else some (.rows []))

/-- The function `mutationQuery` (dbApi.js 58-61). -/
def mutationQuery (fetch : ClientRequest → FetchOutcome) (sql : String) (params : JsVal) :
    Except ClientError (Option Nat) :=
  match queryDB fetch sql params with
  | .error e => .error e
  | .ok result => .ok (if result.success then result.rowCount else some 0)

/-! ## Passenger and booking forms -/

/-- The SQL of `addPassenger` (PassengersApi.js 13-16). -/
def addPassengerSql : String :=
  "\n    INSERT INTO Passengers (FirstName, LastName, PassportNumber)\n    VALUES (?, ?, ?)\n  "

/-- The function `addPassenger` (PassengersApi.js 12-18). -/
def addPassenger (fetch : ClientRequest → FetchOutcome) (firstName lastName passport : String) :
    Except ClientError (Option Nat) :=
  mutationQuery fetch addPassengerSql (.arr [.str firstName, .str lastName, .str passport])

/-- JavaScript `s.includes(sub)`. -/
def jsIncludes (s sub : String) : Bool :=
  s.data.tails.any (fun t => sub.data.isPrefixOf t)

/-- A toast shown to the user. -/
inductive Toast where
  | success (msg : String)
  | error (msg : String)

/-- The `try`/`catch` of the passenger form's `handleSubmit` (Add.jsx 208-224): the toast
shown, or the `TypeError` of `error.message.includes` when the caught error has no
message. -/
def submitPassenger (fetch : ClientRequest → FetchOutcome) (firstName lastName passport : String) :
    Except ClientError Toast :=
  match addPassenger fetch firstName lastName passport with
  | .ok _ => .ok (.success "✈️ Passenger added successfully!")
  | .error error =>
    match error.message with
    | none => .error ⟨some "Cannot read properties of undefined (reading 'includes')"⟩
    | some m =>
      if jsIncludes m "duplicate" || jsIncludes m "unique" then
        .ok (.error "This passenger already exists in the system")
      else
        .ok (.error "Failed to add passenger. Please try again.")

/-- The SQL of `addBooking` (BookingsApi.js 125-128). -/
def addBookingSql : String :=
  "\n    INSERT INTO Bookings (BookingRef, BookingStatus)\n    VALUES (?, 'CONFIRMED')\n  "

/-- The SQL of `addTicket` (BookingsApi.js 133-136). -/
def addTicketSql : String :=
  "\n    INSERT INTO Tickets (BookingID, PassengerID, FlightID, SeatID, TicketPrice)\n    VALUES (?, ?, ?, ?, ?)\n  "

/-- The function `addBooking` (BookingsApi.js 124-130). -/
def addBooking (fetch : ClientRequest → FetchOutcome) (bookingRef : String) :
    Except ClientError (Option Nat) :=
  mutationQuery fetch addBookingSql (.arr [.str bookingRef])

/-- The parameters `addTicket` sends (BookingsApi.js 140):
`[bookingId, passengerId, flightId, seatId, ticketPrice]` with `seatId` null. -/
def ticketParams (bookingId passengerId flightId : Int) (price : JsVal) : JsVal :=
  .arr [.num bookingId, .num passengerId, .num flightId, .null, price]

/-- The function `addTicket` (BookingsApi.js 132-144). -/
def addTicket (fetch : ClientRequest → FetchOutcome) (bookingId passengerId flightId : Int)
    (price : JsVal) : Except ClientError (Option Nat) :=
  mutationQuery fetch addTicketSql (ticketParams bookingId passengerId flightId price)

/-- The expression `bookingResult?.insertId || bookingResult?.id || bookingResult`
(Create.jsx 132): `addBooking` resolves to a number or `undefined`, which have neither
property, so the value is `bookingResult`. -/
def bookingIdOf (bookingResult : Option Nat) : Option Nat :=
  bookingResult

/-- The call `parseInt(n)` on a non-negative integer-valued number: below 1e21 `String(n)`
is the decimal numeral of `n`, which `parseInt` reads back as `n`; from 1e21 on `String(n)`
is in exponential notation and `parseInt` reads only the digit before the point or the
exponent. That digit depends on floating-point printing and is the parameter `expLead`. -/
def jsParseInt (expLead : Nat → Nat) (n : Nat) : Int :=
  if n < 1000000000000000000000 then Int.ofNat n else Int.ofNat (expLead n)

/-- A call of `mutationQuery` together with the request it sends: `queryDB` calls `fetch`
once, with the request it built, and that request is appended to the requests sent. -/
def mutationQuerySent (fetch : ClientRequest → FetchOutcome) (sql : String) (params : JsVal)
    (sent : List ClientRequest) : Except ClientError (Option Nat) × List ClientRequest :=
  (mutationQuery fetch sql params, sent ++ [clientRequest sql params])

/-- The function `addBooking` together with the request it sends. -/
def addBookingSent (fetch : ClientRequest → FetchOutcome) (bookingRef : String)
    (sent : List ClientRequest) : Except ClientError (Option Nat) × List ClientRequest :=
  mutationQuerySent fetch addBookingSql (.arr [.str bookingRef]) sent

/-- The function `addTicket` together with the request it sends. -/
def addTicketSent (fetch : ClientRequest → FetchOutcome) (bookingId passengerId flightId : Int)
    (price : JsVal) (sent : List ClientRequest) :
    Except ClientError (Option Nat) × List ClientRequest :=
  mutationQuerySent fetch addTicketSql (ticketParams bookingId passengerId flightId price) sent

/-- The ticket loop of the booking form (Create.jsx 144-171): for each selected passenger,
in order, `addTicket(parseInt(bookingId), passengerId, parseInt(flightId), null, price)`;
a rejected call is rethrown. The passenger ids, the flight id and the prices are taken after
their conversion to numbers. -/
def ticketLoop (fetch : ClientRequest → FetchOutcome) (expLead : Nat → Nat) (bookingId : Nat)
    (flightId : Int) :
    List (Int × JsVal) → List ClientRequest → Except ClientError Unit × List ClientRequest
  | [], sent => (.ok (), sent)
  | (passengerId, price) :: rest, sent =>
    match addTicketSent fetch (jsParseInt expLead bookingId) passengerId flightId price
        sent with
    | (.error ticketError, sent1) => (.error ticketError, sent1)
    | (.ok _, sent1) => ticketLoop fetch expLead bookingId flightId rest sent1

/-- The booking part of the `try` block of the booking form's `handleSubmit`
(Create.jsx 126-171): `addBooking(bookingRef)`, the extraction of `bookingId`, the test
`!bookingId || bookingId === 0` that throws, and the ticket loop. The result is what the
block throws, if anything, and the requests sent to the server. -/
def bookingTry (fetch : ClientRequest → FetchOutcome) (expLead : Nat → Nat)
    (bookingRef : String) (flightId : Int) (passengers : List (Int × JsVal))
    (sent : List ClientRequest) : Except ClientError Unit × List ClientRequest :=
  match addBookingSent fetch bookingRef sent with
  | (.error e, sent1) => (.error e, sent1)
  | (.ok bookingResult, sent1) =>
    match bookingIdOf bookingResult with
    | none => (.error ⟨some "Failed to get booking ID from database"⟩, sent1)
    | some bookingId =>
      if bookingId = 0 then
        (.error ⟨some "Failed to get booking ID from database"⟩, sent1)
      else
        ticketLoop fetch expLead bookingId flightId passengers sent1

/-! ## Passenger names (`pages/Passengers/Add.jsx`) -/

/-- The apostrophe character. -/
def apostrophe : Char :=
  Char.ofNat 39

/-- The class `[a-zA-Z]`. -/
def isAsciiLetter (c : Char) : Bool :=
  (97 ≤ c.toNat && c.toNat ≤ 122) || (65 ≤ c.toNat && c.toNat ≤ 90)

/-- The class `[-']`. -/
def isNameSpecial (c : Char) : Bool :=
  c == '-' || c == apostrophe

/-- The class `[a-zA-Z\s\-']`; `\s` is the white space that `trim` removes. -/
def isNameChar (c : Char) : Bool :=
  isAsciiLetter c || isJsWhiteSpace c || isNameSpecial c

/-- The replacement `value.replace(/\s{2,}/g, ' ')`: every maximal run of two or more white
space characters becomes one blank, a single white space character stays. `skipping` says
that the characters read are inside a run already replaced. -/
def collapseSpaces (skipping : Bool) : List Char → List Char
  | [] => []
  | c :: cs =>
    if isJsWhiteSpace c then
      if skipping then collapseSpaces true cs
      else
        match cs with
        | d :: _ => if isJsWhiteSpace d then ' ' :: collapseSpaces true cs
          else c :: collapseSpaces false cs
        | [] => [c]
    else c :: collapseSpaces false cs

/-- The replacement `value.replace(/[-']{2,}/g, (match) => match[0])`: every maximal run of
two or more hyphens and apostrophes is cut to its first character. `afterSpecial` says that
the previous character read was a hyphen or an apostrophe. -/
def collapseSpecials (afterSpecial : Bool) : List Char → List Char
  | [] => []
  | c :: cs =>
    if isNameSpecial c then
      if afterSpecial then collapseSpecials true cs
      else c :: collapseSpecials true cs
    else c :: collapseSpecials false cs

/-- The value stored by `handleFirstNameChange` and `handleLastNameChange`
(Add.jsx 110-128, 136-154). After the first replacement every character is one UTF-16 code
unit, so `substring(0, 50)` keeps the first 50 characters. -/
def sanitizeName (value : String) : String :=
  let v1 : List Char := value.data.filter isNameChar
  let v2 : List Char := collapseSpaces false v1
  let v3 : List Char := collapseSpecials false v2
  if jsLength ⟨v3⟩ > 50 then ⟨v3.take 50⟩ else ⟨v3⟩

/-- The tests `/\s{2,}/.test(s)` and `/[-']{2,}/.test(s)`: two adjacent characters of the
class. -/
def hasAdjacent (p : Char → Bool) : List Char → Bool
  | a :: b :: rest => (p a && p b) || hasAdjacent p (b :: rest)
  | _ => false

/-- The function `validateName` (Add.jsx 18-45): the error text, or `none` for `null`. -/
def validateName (name fieldName : String) : Option String :=
  let trimmedName := jsTrim name
  if trimmedName = "" then
    some (fieldName ++ " is required")
  else if jsLength trimmedName < 2 then
    some (fieldName ++ " must be at least 2 characters")
  else if jsLength trimmedName > 50 then
    some (fieldName ++ " must not exceed 50 characters")
  else if !(!trimmedName.data.isEmpty && trimmedName.data.all isNameChar) then
    some (fieldName ++ " can only contain letters, spaces, hyphens, and apostrophes")
  else if hasAdjacent isJsWhiteSpace trimmedName.data ||
      hasAdjacent isNameSpecial trimmedName.data then
    some (fieldName ++ " cannot have consecutive spaces or special characters")
  else
    none

/-! ## Notions of the specification used in the later statements -/

/-- The variables that the claim calls absent from the environment, written from its words:
the mandatory variables, in their fixed order, that are not defined. -/
def specAbsentVars (env : ProcessEnv) : List String :=
  requiredEnvVars.filter (fun name => (env name).isNone)

/-- The three endpoints that the claim lists, as pairs of method and path. -/
def listedEndpoints : List (String × String) :=
  [("GET", "/health"), ("POST", "/api/query"), ("POST", "/api/query-safe")]

/-- The statuses that a database-error response may have (section 6 of the specification). -/
def errorStatuses : List Nat :=
  [400, 401, 404, 413, 500, 503, 504]

/-- No pool has been initialised and nothing is logged yet. -/
def World.noPool : World :=
  { pool := none, log := [] }

/-- A startup in which the pool is created, the lease succeeds and every statement of the
smoke test throws `e`. -/
def Boot.queriesFail (e : DbError) : Boot :=
  { initializePool := .ok (), getConnection := .ok (), query := fun _ => .error e }

/-- Whether the first character of a list is of the class `p`. -/
def startsWith (p : Char → Bool) : List Char → Bool
  | c :: _ => p c
  | [] => false

/-- A `fetch` that always yields the same outcome. -/
def fetchAlways (o : FetchOutcome) : ClientRequest → FetchOutcome :=
  fun _ => o

/-- A probe whose lease succeeds and whose ping throws `e`. -/
def Probe.pingFails (e : DbError) : Probe :=
  { getConnection := .ok (), ping := .error e }

/-- A probe whose lease and ping succeed. -/
def Probe.healthy : Probe :=
  { getConnection := .ok (), ping := .ok () }

/-- An environment in production mode with every mandatory variable set. -/
def productionEnv : ProcessEnv := fun name =>
  if name = "NODE_ENV" then some "production"
  else if name = "DB_HOST" then some "localhost"
  else if name = "DB_USER" then some "root"
  else if name = "DB_PASSWORD" then some "secret"
  else if name = "DB_NAME" then some "airport"
  else if name = "SERVER_PORT" then some "3001"
  else none

/-- An environment in which the database password is defined and empty. -/
def emptyPasswordEnv : ProcessEnv := fun name =>
  if name = "DB_PASSWORD" then some "" else productionEnv name

/-- An environment in development mode. -/
def developmentEnv : ProcessEnv := fun name =>
  if name = "NODE_ENV" then some "development" else productionEnv name

/-! ## Basic facts -/

theorem queryCatch_table (env : ProcessEnv) (requestId : Nat) (e : DbError) (c : String)
    (st : Nat) (cat : String) (hc : e.code = some c) (ht : (c, st, cat) ∈ specErrorRows) :
    (queryCatch env requestId e).status = st ∧ (queryCatch env requestId e).error = some cat := by
  simp only [specErrorRows, List.mem_cons, Prod.mk.injEq, List.mem_singleton, List.not_mem_nil,
    or_false] at ht
  rcases ht with ⟨rfl, rfl, rfl⟩ | ⟨rfl, rfl, rfl⟩ | ⟨rfl, rfl, rfl⟩ | ⟨rfl, rfl, rfl⟩ |
    ⟨rfl, rfl, rfl⟩ | ⟨rfl, rfl, rfl⟩ | ⟨rfl, rfl, rfl⟩ | ⟨rfl, rfl, rfl⟩ | ⟨rfl, rfl, rfl⟩ |
    ⟨rfl, rfl, rfl⟩ | ⟨rfl, rfl, rfl⟩ | ⟨rfl, rfl, rfl⟩ <;>
  simp [queryCatch, orDefault, hc]

theorem queryCatch_unmapped (env : ProcessEnv) (requestId : Nat) (e : DbError)
    (hun : ∀ c, e.code = some c → c ∉ mappedCodes) :
    queryCatch env requestId e =
      { status := 500, success := false, error := some "Database Error",
        message := some (orDefault e.message "Unknown database error"),
        code := some (orDefault e.code "UNKNOWN_ERROR"),
        requestId := some requestId, timestamp := true } := by
  rcases e with ⟨code, msg⟩
  cases code with
  | none => simp [queryCatch, orDefault]
  | some c =>
    have h := hun c rfl
    simp only [mappedCodes, specErrorRows, List.map_cons, List.map_nil, List.mem_cons,
      List.not_mem_nil, or_false, not_or] at h
    obtain ⟨h1, h2, h3, h4, h5, h6, h7, h8, h9, h10, h11, h12⟩ := h
    by_cases hc : c = ""
    · subst hc; simp [queryCatch, orDefault]
    · simp [queryCatch, orDefault, hc, h1, h2, h3, h4, h5, h6, h7, h8, h9, h10, h11, h12]

theorem apiQuery_of_throw (env : ProcessEnv) (drv : Driver) (requestId : Nat) (query : JsVal)
    (w : World) (t : String) (e : DbError) (hv : validateQuery requestId query = .ok t)
    (hp : w.pool.isSome = true) (hthrow : drv.queryThrows t e) :
    (apiQuery env drv requestId query w).1 = .responded (queryCatch env requestId e) := by
  obtain ⟨p, hpool⟩ := Option.isSome_iff_exists.mp hp
  rcases hthrow with hg | ⟨hg, hq⟩
  · simp [apiQuery, hv, queryTry, hpool, hg]
  · simp [apiQuery, hv, queryTry, hpool, hg, hq]

theorem apiQuerySafe_of_throw (env : ProcessEnv) (drv : Driver) (requestId : Nat)
    (query params : JsVal) (w : World) (t : String) (ps : List JsVal) (e : DbError)
    (hv : validateQuerySafe requestId query params = .ok (t, ps))
    (hp : w.pool.isSome = true) (hthrow : drv.executeThrows t ps e) :
    (apiQuerySafe env drv requestId query params w).1 =
      .responded (safeCatch env requestId e) := by
  obtain ⟨p, hpool⟩ := Option.isSome_iff_exists.mp hp
  rcases hthrow with hg | ⟨hg, hq⟩
  · simp [apiQuerySafe, hv, safeTry, hpool, hg]
  · simp [apiQuerySafe, hv, safeTry, hpool, hg, hq]

theorem safeCatch_unmapped (env : ProcessEnv) (requestId : Nat) (e : DbError)
    (hun : ∀ c, e.code = some c → c ∉ mappedCodes) :
    safeCatch env requestId e =
      { status := 500, success := false, error := some "Database Error",
        message := some (orDefault e.message "Unknown database error"),
        code := some (orDefault e.code "UNKNOWN_ERROR"), requestId := some requestId } := by
  rcases e with ⟨code, msg⟩
  cases code with
  | none => simp [safeCatch, orDefault]
  | some c =>
    have h := hun c rfl
    simp only [mappedCodes, specErrorRows, List.map_cons, List.map_nil, List.mem_cons,
      List.not_mem_nil, or_false, not_or] at h
    obtain ⟨h1, h2, h3, h4, -, -, h7, -⟩ := h
    by_cases hc : c = ""
    · subst hc; simp [safeCatch, orDefault]
    · simp [safeCatch, orDefault, hc, h1, h2, h3, h4, h7]

theorem isJsWhiteSpace_space : isJsWhiteSpace ' ' = true := by decide

theorem isJsWhiteSpace_a : isJsWhiteSpace 'a' = false := by decide

theorem trimStart_replicate_a (n : Nat) :
    trimStart (List.replicate n 'a') = List.replicate n 'a' := by
  cases n with
  | zero => rfl
  | succ k => simp [trimStart, List.replicate_succ, List.dropWhile_cons, isJsWhiteSpace_a]

theorem trimEnd_replicate_a (n : Nat) :
    trimEnd (List.replicate n 'a') = List.replicate n 'a' := by
  unfold trimEnd
  rw [List.reverse_replicate]
  have h := trimStart_replicate_a n
  unfold trimStart at h
  rw [h, List.reverse_replicate]

/-- Trimming a run of the letter `a` padded with one blank on each side. -/
theorem jsTrim_padded (n : Nat) :
    jsTrim ⟨' ' :: (List.replicate n 'a' ++ [' '])⟩ = ⟨List.replicate n 'a'⟩ := by
  have h1 : trimStart (' ' :: (List.replicate n 'a' ++ [' '])) =
      trimStart (List.replicate n 'a' ++ [' ']) := by
    simp [trimStart, List.dropWhile_cons, isJsWhiteSpace_space]
  have h2 : trimStart (List.replicate n 'a' ++ [' ']) =
      if n = 0 then [] else List.replicate n 'a' ++ [' '] := by
    cases n with
    | zero => simp [trimStart, List.dropWhile_cons, isJsWhiteSpace_space]
    | succ k => simp [trimStart, List.replicate_succ, List.dropWhile_cons, isJsWhiteSpace_a]
  have h3 : trimEnd (List.replicate n 'a' ++ [' ']) = List.replicate n 'a' := by
    have h := trimEnd_replicate_a n
    unfold trimEnd at h ⊢
    rw [List.reverse_append, List.reverse_singleton, List.singleton_append,
      List.dropWhile_cons, isJsWhiteSpace_space]
    simpa using h
  unfold jsTrim
  simp only [h1, h2]
  by_cases hn : n = 0
  · subst hn; simp [trimEnd]
  · simp [hn, h3]

theorem jsTrim_replicate_a (n : Nat) :
    jsTrim ⟨List.replicate n 'a'⟩ = ⟨List.replicate n 'a'⟩ := by
  simp [jsTrim, trimStart_replicate_a, trimEnd_replicate_a]

theorem jsLength_replicate_a (n : Nat) : jsLength ⟨List.replicate n 'a'⟩ = n := by
  have h : utf16Units 'a' = 1 := by decide
  simp [jsLength, List.map_replicate, h]

theorem jsLength_padded (n : Nat) :
    jsLength ⟨' ' :: (List.replicate n 'a' ++ [' '])⟩ = n + 2 := by
  have hsp : utf16Units ' ' = 1 := by decide
  have ha : utf16Units 'a' = 1 := by decide
  simp [jsLength, List.map_replicate, hsp, ha]
  omega

theorem orDefault_of_code (c d : String) (hc : c ≠ "") : orDefault (some c) d = c := by
  simp [orDefault, hc]

/-! ## The error mapping (section 4.5) -/

/-- C1: whenever the `try` block of `POST /api/query` throws a driver error whose code has a
row in the table of section 4.5, the response carries exactly the HTTP status and the
`error` category of that row. -/
theorem query_error_mapping (env : ProcessEnv) (drv : Driver) (requestId : Nat) (query : JsVal)
    (w : World) (t : String) (e : DbError) (c : String) (st : Nat) (cat : String)
    (hv : validateQuery requestId query = .ok t) (hp : w.pool.isSome = true)
    (hthrow : drv.queryThrows t e) (hc : e.code = some c)
    (hrow : (c, st, cat) ∈ specErrorRows) :
    ∃ r, (apiQuery env drv requestId query w).1 = .responded r ∧
      r.status = st ∧ r.error = some cat :=
  ⟨_, apiQuery_of_throw env drv requestId query w t e hv hp hthrow,
    queryCatch_table env requestId e c st cat hc hrow⟩

theorem query_error_mapping_witness :
    ("PROTOCOL_TIMEOUT", 504, "Query Timeout") ∈ specErrorRows ∧
    ∃ r, (apiQuery sampleEnv (Driver.failing ⟨some "PROTOCOL_TIMEOUT", none⟩) 7
        (.str " SELECT SLEEP(100) ") (World.start 0)).1 = .responded r ∧
      r.status = 504 ∧ r.error = some "Query Timeout" :=
  ⟨by simp [specErrorRows],
    query_error_mapping sampleEnv (Driver.failing ⟨some "PROTOCOL_TIMEOUT", none⟩) 7
      (.str " SELECT SLEEP(100) ") (World.start 0) "SELECT SLEEP(100)"
      ⟨some "PROTOCOL_TIMEOUT", none⟩ "PROTOCOL_TIMEOUT" 504 "Query Timeout" rfl rfl
      (Or.inr ⟨rfl, rfl⟩) rfl (by simp [specErrorRows])⟩

/-- C2: evaluation of the code where the claim fails. The table has the row
`ER_NO_SUCH_TABLE -> 404 'Table Not Found'` and `POST /api/query` answers with it, but
`POST /api/query-safe` answers the same driver error with 500 'Database Error'. -/
theorem querySafe_no_such_table_is_generic :
    ("ER_NO_SUCH_TABLE", 404, "Table Not Found") ∈ specErrorRows ∧
    (∃ r, (apiQuery sampleEnv (Driver.failing ⟨some "ER_NO_SUCH_TABLE", none⟩) 7
        (.str "SELECT * FROM nowhere") (World.start 0)).1 = .responded r ∧
      r.status = 404 ∧ r.error = some "Table Not Found") ∧
    (∃ r, (apiQuerySafe sampleEnv (Driver.failing ⟨some "ER_NO_SUCH_TABLE", none⟩) 7
        (.str "SELECT * FROM nowhere") (.arr []) (World.start 0)).1 = .responded r ∧
      r.status = 500 ∧ r.error = some "Database Error") :=
  ⟨by simp [specErrorRows], ⟨_, rfl, rfl, rfl⟩, ⟨_, rfl, rfl, rfl⟩⟩

/-- C3: on both query endpoints a driver error whose code has no row in the table yields
HTTP 500 with category 'Database Error'; the `code` field is the raw driver code when the
error carries one (a non-empty string) and 'UNKNOWN_ERROR' when it carries none. -/
theorem unmapped_code_is_generic_500 (env : ProcessEnv) (drv : Driver) (requestId : Nat)
    (query querySafe params : JsVal) (w : World) (t ts : String) (ps : List JsVal) (e : DbError)
    (hv : validateQuery requestId query = .ok t)
    (hvs : validateQuerySafe requestId querySafe params = .ok (ts, ps))
    (hp : w.pool.isSome = true)
    (hthrow : drv.queryThrows t e) (hthrows : drv.executeThrows ts ps e)
    (hun : ∀ c, e.code = some c → c ∉ mappedCodes) :
    (∃ r, (apiQuery env drv requestId query w).1 = .responded r ∧
      r.status = 500 ∧ r.error = some "Database Error" ∧
      (∀ c, e.code = some c → c ≠ "" → r.code = some c) ∧
      (e.code = none → r.code = some "UNKNOWN_ERROR")) ∧
    (∃ r, (apiQuerySafe env drv requestId querySafe params w).1 = .responded r ∧
      r.status = 500 ∧ r.error = some "Database Error" ∧
      (∀ c, e.code = some c → c ≠ "" → r.code = some c) ∧
      (e.code = none → r.code = some "UNKNOWN_ERROR")) := by
  refine ⟨⟨_, apiQuery_of_throw env drv requestId query w t e hv hp hthrow, ?_⟩,
    ⟨_, apiQuerySafe_of_throw env drv requestId querySafe params w ts ps e hvs hp hthrows, ?_⟩⟩
  · rw [queryCatch_unmapped env requestId e hun]
    refine ⟨rfl, rfl, ?_, ?_⟩
    · intro c hc hne
      simp [hc, orDefault_of_code c _ hne]
    · intro hc
      simp [hc, orDefault]
  · rw [safeCatch_unmapped env requestId e hun]
    refine ⟨rfl, rfl, ?_, ?_⟩
    · intro c hc hne
      simp [hc, orDefault_of_code c _ hne]
    · intro hc
      simp [hc, orDefault]

theorem unmapped_code_is_generic_500_witness :
    (∃ r, (apiQuery sampleEnv (Driver.failing ⟨some "ER_DUP_ENTRY", none⟩) 7
        (.str "INSERT INTO Airlines VALUES (1)") (World.start 0)).1 = .responded r ∧
      r.status = 500 ∧ r.error = some "Database Error" ∧ r.code = some "ER_DUP_ENTRY") ∧
    (∃ r, (apiQuerySafe sampleEnv (Driver.failing ⟨some "ER_DUP_ENTRY", none⟩) 7
        (.str "INSERT INTO Airlines VALUES (?)") (.arr [.num 1]) (World.start 0)).1 =
          .responded r ∧
      r.status = 500 ∧ r.error = some "Database Error" ∧ r.code = some "ER_DUP_ENTRY") := by
  have h := unmapped_code_is_generic_500 sampleEnv (Driver.failing ⟨some "ER_DUP_ENTRY", none⟩) 7
    (.str "INSERT INTO Airlines VALUES (1)") (.str "INSERT INTO Airlines VALUES (?)")
    (.arr [.num 1]) (World.start 0) "INSERT INTO Airlines VALUES (1)"
    "INSERT INTO Airlines VALUES (?)" [.num 1] ⟨some "ER_DUP_ENTRY", none⟩ rfl rfl rfl
    (Or.inr ⟨rfl, rfl⟩) (Or.inr ⟨rfl, rfl⟩)
    (by intro c hc; cases hc; simp [mappedCodes, specErrorRows])
  obtain ⟨⟨r, h1, h2, h3, h4, -⟩, ⟨r2, k1, k2, k3, k4, -⟩⟩ := h
  exact ⟨⟨r, h1, h2, h3, h4 _ rfl (by simp)⟩, ⟨r2, k1, k2, k3, k4 _ rfl (by simp)⟩⟩

/-! ## Input validation of `/api/query` -/

theorem queryCatch_classify (env : ProcessEnv) (requestId : Nat) (e : DbError) :
    (∃ c st cat, e.code = some c ∧ (c, st, cat) ∈ specErrorRows ∧
      (queryCatch env requestId e).status = st ∧ (queryCatch env requestId e).error = some cat) ∨
    ((queryCatch env requestId e).status = 500 ∧
      (queryCatch env requestId e).error = some "Database Error") := by
  by_cases h : ∃ c, e.code = some c ∧ c ∈ mappedCodes
  · obtain ⟨c, hc, hm⟩ := h
    obtain ⟨⟨c2, st, cat⟩, hrow, hfst⟩ := List.mem_map.mp hm
    have hcc : c2 = c := hfst
    subst hcc
    exact Or.inl ⟨c2, st, cat, hc, hrow, queryCatch_table env requestId e c2 st cat hc hrow⟩
  · right
    have hun : ∀ c, e.code = some c → c ∉ mappedCodes := fun c hc hm => h ⟨c, hc, hm⟩
    rw [queryCatch_unmapped env requestId e hun]
    exact ⟨rfl, rfl⟩

theorem specErrorRows_category_ne (row : String × Nat × String) (h : row ∈ specErrorRows) :
    row.2.2 ≠ "Bad Request" := by
  revert row
  decide

theorem queryCatch_not_badRequest (env : ProcessEnv) (requestId : Nat) (e : DbError) :
    (queryCatch env requestId e).error ≠ some "Bad Request" := by
  rcases queryCatch_classify env requestId e with ⟨c, st, cat, -, hrow, -, herr⟩ | ⟨-, herr⟩
  · rw [herr]
    intro h
    exact specErrorRows_category_ne _ hrow (Option.some.inj h)
  · rw [herr]
    decide

theorem validateQuery_error_shape (requestId : Nat) (query : JsVal) (resp : Response)
    (h : validateQuery requestId query = .error resp) :
    resp.status = 400 ∧ resp.error = some "Bad Request" := by
  unfold validateQuery at h
  split at h
  · cases h; exact ⟨rfl, rfl⟩
  · split at h
    · simp only [] at h
      split_ifs at h <;> cases h <;> exact ⟨rfl, rfl⟩
    · cases h; exact ⟨rfl, rfl⟩

theorem validateQuery_isOk_iff (requestId : Nat) (query : JsVal) :
    (∃ t, validateQuery requestId query = .ok t) ↔ specRejects query = false := by
  cases query with
  | str s =>
    by_cases h0 : jsLength (jsTrim s) = 0
    · have hs : (s != "") = true ∨ (s != "") = false := by
        cases (s != "") <;> simp
      rcases hs with hs | hs <;> simp [validateQuery, specRejects, JsVal.truthy, h0, hs]
    · have hs : (s != "") = true := by
        rcases s with ⟨cs⟩
        cases cs with
        | nil => exact absurd rfl h0
        | cons c cs => simp [bne_iff_ne, String.ext_iff]
      by_cases h1 : 100000 < jsLength (jsTrim s) <;>
        simp [validateQuery, specRejects, JsVal.truthy, h0, hs, h1]
  | undefined => simp [validateQuery, specRejects, JsVal.truthy]
  | null => simp [validateQuery, specRejects, JsVal.truthy]
  | bool b => cases b <;> simp [validateQuery, specRejects, JsVal.truthy]
  | num n =>
    by_cases hn : n = 0 <;> simp [validateQuery, specRejects, JsVal.truthy, hn]
  | arr xs => simp [validateQuery, specRejects, JsVal.truthy]
  | obj fs => simp [validateQuery, specRejects, JsVal.truthy]

theorem apiQuery_of_invalid (env : ProcessEnv) (drv : Driver) (requestId : Nat) (query : JsVal)
    (w : World) (resp : Response) (h : validateQuery requestId query = .error resp) :
    apiQuery env drv requestId query w = (.responded resp, w) := by
  simp [apiQuery, h]

theorem apiQuery_of_valid (env : ProcessEnv) (drv : Driver) (requestId : Nat) (query : JsVal)
    (w : World) (t : String) (h : validateQuery requestId query = .ok t) :
    ∃ r, (apiQuery env drv requestId query w).1 = .responded r ∧
      (r = poolMissing requestId ∨ (∃ res, r = successResponse requestId res) ∨
        ∃ e, r = queryCatch env requestId e) := by
  simp only [apiQuery, h, queryTry]
  cases w.pool with
  | none => exact ⟨_, rfl, Or.inl rfl⟩
  | some p =>
    cases drv.getConnection with
    | error e => exact ⟨_, rfl, Or.inr (Or.inr ⟨e, rfl⟩)⟩
    | ok c =>
      cases drv.query t with
      | error e => exact ⟨_, rfl, Or.inr (Or.inr ⟨e, rfl⟩)⟩
      | ok res => exact ⟨_, rfl, Or.inr (Or.inl ⟨res, rfl⟩)⟩

/-- C4: `POST /api/query` answers 400 'Bad Request' exactly when `query` is omitted, is not
a string, is empty after trimming or is longer than 100,000 after trimming, and in that case
nothing is leased or executed; a query whose trimmed length is exactly 100,000 passes
validation whatever its untrimmed length. -/
theorem query_bad_request_iff (env : ProcessEnv) (drv : Driver) (requestId : Nat)
    (query : JsVal) (w : World) :
    ((∃ r, (apiQuery env drv requestId query w).1 = .responded r ∧
        r.status = 400 ∧ r.error = some "Bad Request") ↔ specRejects query = true) ∧
    (specRejects query = true → (apiQuery env drv requestId query w).2 = w) ∧
    (∀ s, jsLength (jsTrim s) = 100000 → validateQuery requestId (.str s) = .ok (jsTrim s)) := by
  have hiff := validateQuery_isOk_iff requestId query
  refine ⟨?_, ?_, ?_⟩
  · cases hv : validateQuery requestId query with
    | error resp =>
      have hrej : specRejects query = true := by
        cases hr : specRejects query with
        | true => rfl
        | false =>
          obtain ⟨t, ht⟩ := hiff.mpr hr
          rw [hv] at ht
          cases ht
      rw [apiQuery_of_invalid env drv requestId query w resp hv]
      have hshape := validateQuery_error_shape requestId query resp hv
      exact ⟨fun _ => hrej, fun _ => ⟨resp, rfl, hshape⟩⟩
    | ok t =>
      have hacc : specRejects query = false := hiff.mp ⟨t, hv⟩
      obtain ⟨r, hr, hcases⟩ := apiQuery_of_valid env drv requestId query w t hv
      constructor
      · rintro ⟨r2, hr2, hst, herr⟩
        rw [hr] at hr2
        cases hr2
        rcases hcases with rfl | ⟨res, rfl⟩ | ⟨e, rfl⟩
        · simp [poolMissing] at hst
        · simp [successResponse] at hst
        · exact absurd herr (queryCatch_not_badRequest env requestId e)
      · intro h
        rw [hacc] at h
        cases h
  · intro hrej
    cases hv : validateQuery requestId query with
    | error resp => rw [apiQuery_of_invalid env drv requestId query w resp hv]
    | ok t =>
      have hacc : specRejects query = false := hiff.mp ⟨t, hv⟩
      rw [hacc] at hrej
      cases hrej
  · intro s hs
    have hne : (s != "") = true := by
      rcases s with ⟨cs⟩
      cases cs with
      | nil => simp [jsTrim, trimStart, trimEnd, jsLength] at hs
      | cons c cs => simp [bne_iff_ne, String.ext_iff]
    simp [validateQuery, JsVal.truthy, hne, hs]

theorem query_bad_request_iff_witness :
    jsLength ⟨' ' :: (List.replicate 100000 'a' ++ [' '])⟩ = 100002 ∧
    validateQuery 7 (.str ⟨' ' :: (List.replicate 100000 'a' ++ [' '])⟩) =
      .ok ⟨List.replicate 100000 'a'⟩ ∧
    (apiQuery sampleEnv (Driver.returning (.rows [])) 7 (.num 5) (World.start 3)).2 =
      World.start 3 := by
  have h := query_bad_request_iff sampleEnv (Driver.returning (.rows [])) 7 (.num 5)
    (World.start 3)
  refine ⟨?_, ?_, h.2.1 rfl⟩
  · exact jsLength_padded 100000
  · have h3 := h.2.2 ⟨' ' :: (List.replicate 100000 'a' ++ [' '])⟩
    rw [jsTrim_padded 100000] at h3
    exact h3 (jsLength_replicate_a 100000)

/-! ## Input validation of `/api/query-safe` -/

theorem str_replicate_truthy (n : Nat) (hn : 0 < n) :
    (JsVal.str ⟨List.replicate n 'a'⟩).truthy = true := by
  cases n with
  | zero => omega
  | succ k => simp [JsVal.truthy, bne_iff_ne, String.ext_iff, List.replicate_succ]

theorem apiQuerySafe_replicate (env : ProcessEnv) (requestId n k : Nat) (hn : 0 < n)
    (res : DriverResult) (ps : List JsVal) :
    apiQuerySafe env (Driver.returning res) requestId (.str ⟨List.replicate n 'a'⟩) (.arr ps)
        (World.start k) =
      (.responded (successResponse requestId res),
        { pool := some { inUse := k },
          log := [Event.acquire, Event.runExecute ⟨List.replicate n 'a'⟩ ps, Event.release] }) := by
  have hv : validateQuerySafe requestId (.str ⟨List.replicate n 'a'⟩) (.arr ps) =
      .ok (⟨List.replicate n 'a'⟩, ps) := by
    have hl : jsLength ⟨List.replicate n 'a'⟩ ≠ 0 := by
      rw [jsLength_replicate_a]; omega
    simp [validateQuerySafe, str_replicate_truthy n hn, jsTrim_replicate_a, hl]
  simp [apiQuerySafe, hv, safeTry, World.start, Driver.returning, World.lease, World.record,
    finallyRelease, World.unlease]

theorem apiQuery_replicate_too_long (env : ProcessEnv) (drv : Driver) (requestId n : Nat)
    (hn : 100000 < n) (w : World) :
    apiQuery env drv requestId (.str ⟨List.replicate n 'a'⟩) w =
      (.responded (badRequest requestId
        "Query exceeds maximum allowed length (100,000 characters)"), w) := by
  apply apiQuery_of_invalid
  have hl : jsLength ⟨List.replicate n 'a'⟩ ≠ 0 := by
    rw [jsLength_replicate_a]; omega
  have hl2 : 100000 < jsLength ⟨List.replicate n 'a'⟩ := by
    rw [jsLength_replicate_a]; exact hn
  simp [validateQuery, str_replicate_truthy n (by omega), jsTrim_replicate_a, hl, hl2]

/-- C5: evaluation of the code where the claim fails. With `query` a non-zero number, an
array or an object and `params` an array, `POST /api/query-safe` sends no 400: evaluating
`query.trim()` throws a `TypeError` that leaves the handler, while `POST /api/query`
answers the same `query` with 400 'Query must be a string'. -/
theorem querySafe_non_string_query_throws :
    apiQuerySafe sampleEnv (Driver.returning (.rows [])) 7 (.num 5) (.arr []) (World.start 0) =
      (.threw (.typeError "query.trim is not a function"), World.start 0) ∧
    apiQuerySafe sampleEnv (Driver.returning (.rows [])) 7 (.arr [.str "SELECT 1"]) (.arr [])
        (World.start 0) =
      (.threw (.typeError "query.trim is not a function"), World.start 0) ∧
    apiQuerySafe sampleEnv (Driver.returning (.rows [])) 7 (.obj [("sql", .str "SELECT 1")])
        (.arr []) (World.start 0) =
      (.threw (.typeError "query.trim is not a function"), World.start 0) ∧
    apiQuery sampleEnv (Driver.returning (.rows [])) 7 (.num 5) (World.start 0) =
      (.responded (badRequest 7 "Query must be a string"), World.start 0) :=
  ⟨rfl, rfl, rfl, rfl⟩

/-- C6: evaluation of the code where the claim fails. A `query` of 100,001 letters with
`params` an empty array is rejected with 400 by `POST /api/query`, but `POST /api/query-safe`
has no length check: the statement is handed to the driver and the response is 200. -/
theorem querySafe_no_length_limit :
    jsLength (jsTrim ⟨List.replicate 100001 'a'⟩) = 100001 ∧
    apiQuerySafe sampleEnv (Driver.returning (.rows [])) 7 (.str ⟨List.replicate 100001 'a'⟩)
        (.arr []) (World.start 0) =
      (.responded (successResponse 7 (.rows [])),
        { pool := some { inUse := 0 },
          log := [Event.acquire, Event.runExecute ⟨List.replicate 100001 'a'⟩ [],
            Event.release] }) ∧
    (successResponse 7 (.rows [])).status = 200 ∧
    apiQuery sampleEnv (Driver.returning (.rows [])) 7 (.str ⟨List.replicate 100001 'a'⟩)
        (World.start 0) =
      (.responded (badRequest 7 "Query exceeds maximum allowed length (100,000 characters)"),
        World.start 0) := by
  refine ⟨?_, apiQuerySafe_replicate sampleEnv 7 100001 0 (by omega) (.rows []) [], rfl,
    apiQuery_replicate_too_long sampleEnv _ 7 100001 (by omega) _⟩
  rw [jsTrim_replicate_a, jsLength_replicate_a]

/-- C7: when `params` is not an array (omitted, null, a string, a number, an object)
`POST /api/query-safe` answers 400 without touching the pool, whatever `query` is; with
`params` the empty array a non-blank string `query` passes validation. -/
theorem querySafe_params_must_be_array (env : ProcessEnv) (drv : Driver) (requestId : Nat)
    (query params : JsVal) (w : World) :
    (params.isArray = false →
      ∃ r, apiQuerySafe env drv requestId query params w = (.responded r, w) ∧
        r.status = 400 ∧ r.error = some "Bad Request") ∧
    (∀ s, jsLength (jsTrim s) ≠ 0 →
      validateQuerySafe requestId (.str s) (.arr []) = .ok (jsTrim s, [])) := by
  constructor
  · intro hp
    by_cases hq : query.truthy = true
    · refine ⟨badRequest requestId "Parameters must be an array", ?_, rfl, rfl⟩
      cases params with
      | arr ps => simp [JsVal.isArray] at hp
      | _ => simp [apiQuerySafe, validateQuerySafe, hq]
    · refine ⟨badRequest requestId "Missing required parameter: 'query'", ?_, rfl, rfl⟩
      simp [apiQuerySafe, validateQuerySafe, hq]
  · intro s hs
    have hne : (s != "") = true := by
      rcases s with ⟨cs⟩
      cases cs with
      | nil => simp [jsTrim, trimStart, trimEnd, jsLength] at hs
      | cons c cs => simp [bne_iff_ne, String.ext_iff]
    simp [validateQuerySafe, JsVal.truthy, hne, hs]

theorem querySafe_params_must_be_array_witness :
    (∃ r, apiQuerySafe sampleEnv (Driver.returning (.rows [])) 7 (.str "SELECT 1")
        (.str "[1]") (World.start 2) = (.responded r, World.start 2) ∧
      r.status = 400 ∧ r.error = some "Bad Request") ∧
    validateQuerySafe 7 (.str " SELECT 1 ") (.arr []) = .ok ("SELECT 1", []) := by
  have h := querySafe_params_must_be_array sampleEnv (Driver.returning (.rows [])) 7
    (.str "SELECT 1") (.str "[1]") (World.start 2)
  exact ⟨h.1 rfl, h.2 " SELECT 1 " (by decide)⟩

/-- C8: evaluation of the code where the claim fails. The body `{query: ""}` is stopped by the
first guard `!query` (the empty string is falsy), so the 400 response carries the message
for a missing parameter; 'Query cannot be empty' is only sent for a non-empty string of
white space. -/
theorem query_empty_string_reported_missing :
    apiQuery sampleEnv (Driver.returning (.rows [])) 7 (.str "") (World.start 0) =
      (.responded (badRequest 7 "Missing required parameter: 'query'"), World.start 0) ∧
    apiQuery sampleEnv (Driver.returning (.rows [])) 7 (.str "  ") (World.start 0) =
      (.responded (badRequest 7 "Query cannot be empty"), World.start 0) ∧
    "Missing required parameter: 'query'" ≠ "Query cannot be empty" :=
  ⟨rfl, rfl, by decide⟩

/-- C9: evaluation of the code where the claim fails. The values `0` and `false` are present
and are not strings, but the first guard `!query` stops them, so the 400 response carries
the message for a missing parameter; 'Query must be a string' is only sent for truthy
values such as `5` or `true`. -/
theorem query_falsy_non_string_reported_missing :
    apiQuery sampleEnv (Driver.returning (.rows [])) 7 (.num 0) (World.start 0) =
      (.responded (badRequest 7 "Missing required parameter: 'query'"), World.start 0) ∧
    apiQuery sampleEnv (Driver.returning (.rows [])) 7 (.bool false) (World.start 0) =
      (.responded (badRequest 7 "Missing required parameter: 'query'"), World.start 0) ∧
    apiQuery sampleEnv (Driver.returning (.rows [])) 7 (.num 5) (World.start 0) =
      (.responded (badRequest 7 "Query must be a string"), World.start 0) ∧
    apiQuery sampleEnv (Driver.returning (.rows [])) 7 (.bool true) (World.start 0) =
      (.responded (badRequest 7 "Query must be a string"), World.start 0) ∧
    "Missing required parameter: 'query'" ≠ "Query must be a string" :=
  ⟨rfl, rfl, rfl, rfl, by decide⟩

/-! ## Connection leases -/

theorem queryTry_finally (drv : Driver) (requestId : Nat) (t : String) (w : World) :
    ((finallyRelease (queryTry drv requestId t w).2.1 (queryTry drv requestId t w).2.2).log =
        w.log ∨
      (finallyRelease (queryTry drv requestId t w).2.1 (queryTry drv requestId t w).2.2).log =
        w.log ++ [Event.acquire, Event.runQuery t, Event.release]) ∧
    (finallyRelease (queryTry drv requestId t w).2.1 (queryTry drv requestId t w).2.2).pool =
      w.pool := by
  rcases w with ⟨pool, log⟩
  cases pool with
  | none => simp [queryTry, finallyRelease]
  | some p =>
    cases hg : drv.getConnection with
    | error e => simp [queryTry, finallyRelease, hg]
    | ok c =>
      cases hq : drv.query t <;>
        simp [queryTry, finallyRelease, hg, hq, World.lease, World.record, World.unlease]

theorem safeTry_finally (drv : Driver) (requestId : Nat) (t : String) (ps : List JsVal)
    (w : World) :
    ((finallyRelease (safeTry drv requestId t ps w).2.1 (safeTry drv requestId t ps w).2.2).log =
        w.log ∨
      (finallyRelease (safeTry drv requestId t ps w).2.1 (safeTry drv requestId t ps w).2.2).log =
        w.log ++ [Event.acquire, Event.runExecute t ps, Event.release]) ∧
    (finallyRelease (safeTry drv requestId t ps w).2.1 (safeTry drv requestId t ps w).2.2).pool =
      w.pool := by
  rcases w with ⟨pool, log⟩
  cases pool with
  | none => simp [safeTry, finallyRelease]
  | some p =>
    cases hg : drv.getConnection with
    | error e => simp [safeTry, finallyRelease, hg]
    | ok c =>
      cases hq : drv.execute t ps <;>
        simp [safeTry, finallyRelease, hg, hq, World.lease, World.record, World.unlease]

theorem apiQuery_world (env : ProcessEnv) (drv : Driver) (requestId : Nat) (query : JsVal)
    (w : World) :
    (apiQuery env drv requestId query w).2 = w ∨
      ∃ t, (apiQuery env drv requestId query w).2 =
        finallyRelease (queryTry drv requestId t w).2.1 (queryTry drv requestId t w).2.2 := by
  cases hv : validateQuery requestId query with
  | error resp => left; simp [apiQuery, hv]
  | ok t =>
    right
    refine ⟨t, ?_⟩
    simp only [apiQuery, hv]
    rcases queryTry drv requestId t w with ⟨r, c, w1⟩
    cases r <;> rfl

theorem apiQuerySafe_world (env : ProcessEnv) (drv : Driver) (requestId : Nat)
    (query params : JsVal) (w : World) :
    (apiQuerySafe env drv requestId query params w).2 = w ∨
      ∃ t ps, (apiQuerySafe env drv requestId query params w).2 =
        finallyRelease (safeTry drv requestId t ps w).2.1 (safeTry drv requestId t ps w).2.2 := by
  cases hv : validateQuerySafe requestId query params with
  | error out => left; simp [apiQuerySafe, hv]
  | ok v =>
    obtain ⟨t, ps⟩ := v
    right
    refine ⟨t, ps, ?_⟩
    simp only [apiQuerySafe, hv]
    rcases safeTry drv requestId t ps w with ⟨r, c, w1⟩
    cases r <;> rfl

theorem apiQuery_leased_log (env : ProcessEnv) (drv : Driver) (requestId : Nat) (query : JsVal)
    (w : World) (t : String) (hv : validateQuery requestId query = .ok t)
    (hp : w.pool.isSome = true) (hg : drv.getConnection = .ok ()) :
    (apiQuery env drv requestId query w).2.log =
      w.log ++ [Event.acquire, Event.runQuery t, Event.release] := by
  obtain ⟨p, hpool⟩ := Option.isSome_iff_exists.mp hp
  cases hq : drv.query t <;>
    simp [apiQuery, hv, queryTry, hpool, hg, hq, finallyRelease, World.lease, World.record,
      World.unlease]

theorem apiQuerySafe_leased_log (env : ProcessEnv) (drv : Driver) (requestId : Nat)
    (query params : JsVal) (w : World) (t : String) (ps : List JsVal)
    (hv : validateQuerySafe requestId query params = .ok (t, ps))
    (hp : w.pool.isSome = true) (hg : drv.getConnection = .ok ()) :
    (apiQuerySafe env drv requestId query params w).2.log =
      w.log ++ [Event.acquire, Event.runExecute t ps, Event.release] := by
  obtain ⟨p, hpool⟩ := Option.isSome_iff_exists.mp hp
  cases hq : drv.execute t ps <;>
    simp [apiQuerySafe, hv, safeTry, hpool, hg, hq, finallyRelease, World.lease, World.record,
      World.unlease]

/-- C10: on every exit path of `POST /api/query` and of `POST /api/query-safe` the driver
calls added to the log are either none, or one lease, one statement and one release in that
order, and the pool (its in-use count) after the request is the pool before it. Whenever a
connection is leased (validation passed, the pool exists, `getConnection` succeeded) the log
is lease, statement, release, whether the statement returns or throws. -/
theorem lease_released_exactly_once (env : ProcessEnv) (drv : Driver) (requestId : Nat)
    (query params : JsVal) (w : World) :
    (((apiQuery env drv requestId query w).2.log = w.log ∨
        ∃ t, (apiQuery env drv requestId query w).2.log =
          w.log ++ [Event.acquire, Event.runQuery t, Event.release]) ∧
      (apiQuery env drv requestId query w).2.pool = w.pool ∧
      (∀ t, validateQuery requestId query = .ok t → w.pool.isSome = true →
        drv.getConnection = .ok () →
        (apiQuery env drv requestId query w).2.log =
          w.log ++ [Event.acquire, Event.runQuery t, Event.release])) ∧
    (((apiQuerySafe env drv requestId query params w).2.log = w.log ∨
        ∃ t ps, (apiQuerySafe env drv requestId query params w).2.log =
          w.log ++ [Event.acquire, Event.runExecute t ps, Event.release]) ∧
      (apiQuerySafe env drv requestId query params w).2.pool = w.pool ∧
      (∀ t ps, validateQuerySafe requestId query params = .ok (t, ps) → w.pool.isSome = true →
        drv.getConnection = .ok () →
        (apiQuerySafe env drv requestId query params w).2.log =
          w.log ++ [Event.acquire, Event.runExecute t ps, Event.release])) := by
  constructor
  · refine ⟨?_, ?_, fun t hv hp hg => apiQuery_leased_log env drv requestId query w t hv hp hg⟩
    all_goals rcases apiQuery_world env drv requestId query w with h | ⟨t, h⟩
    · rw [h]; exact Or.inl rfl
    · rw [h]
      exact (queryTry_finally drv requestId t w).1.imp id (fun hl => ⟨t, hl⟩)
    · rw [h]
    · rw [h]
      exact (queryTry_finally drv requestId t w).2
  · refine ⟨?_, ?_, fun t ps hv hp hg =>
      apiQuerySafe_leased_log env drv requestId query params w t ps hv hp hg⟩
    all_goals rcases apiQuerySafe_world env drv requestId query params w with h | ⟨t, ps, h⟩
    · rw [h]; exact Or.inl rfl
    · rw [h]
      exact (safeTry_finally drv requestId t ps w).1.imp id (fun hl => ⟨t, ps, hl⟩)
    · rw [h]
    · rw [h]
      exact (safeTry_finally drv requestId t ps w).2

theorem lease_released_exactly_once_witness :
    (apiQuery sampleEnv (Driver.failing ⟨some "ER_PARSE_ERROR", none⟩) 7 (.str "SELEC 1")
        (World.start 3)).2.log =
      [Event.acquire, Event.runQuery "SELEC 1", Event.release] ∧
    (apiQuery sampleEnv (Driver.failing ⟨some "ER_PARSE_ERROR", none⟩) 7 (.str "SELEC 1")
        (World.start 3)).2.pool = (World.start 3).pool ∧
    (apiQuerySafe sampleEnv (Driver.failing ⟨some "ER_PARSE_ERROR", none⟩) 7 (.str "SELEC ?")
        (.arr [.num 1]) (World.start 3)).2.log =
      [Event.acquire, Event.runExecute "SELEC ?" [.num 1], Event.release] := by
  have h := lease_released_exactly_once sampleEnv (Driver.failing ⟨some "ER_PARSE_ERROR", none⟩)
    7 (.str "SELEC 1") (.arr [.num 1]) (World.start 3)
  have k := lease_released_exactly_once sampleEnv (Driver.failing ⟨some "ER_PARSE_ERROR", none⟩)
    7 (.str "SELEC ?") (.arr [.num 1]) (World.start 3)
  exact ⟨h.1.2.2 "SELEC 1" rfl rfl rfl, h.1.2.1, k.2.2.2 "SELEC ?" [.num 1] rfl rfl rfl⟩

/-! ## `GET /health` -/

/-- C11: evaluation of the code where the claim fails. With two connections in use, a lease
that succeeds and a ping that throws, `GET /health` answers 503 and leaves three connections
in use: the log holds the lease and the ping and no release, because `connection.release()`
is not in a `finally` block. When the ping succeeds the lease is released. -/
theorem health_ping_failure_leaks_lease :
    health (Probe.pingFails ⟨some "PROTOCOL_CONNECTION_LOST", some "Connection lost"⟩)
        (World.start 2) =
      (.responded (healthCatch ⟨some "PROTOCOL_CONNECTION_LOST", some "Connection lost"⟩),
        { pool := some { inUse := 3 }, log := [Event.acquire, Event.ping] }) ∧
    (healthCatch ⟨some "PROTOCOL_CONNECTION_LOST", some "Connection lost"⟩).status = 503 ∧
    health Probe.healthy (World.start 2) =
      (.responded healthOk,
        { pool := some { inUse := 2 }, log := [Event.acquire, Event.ping, Event.release] }) :=
  ⟨rfl, rfl, rfl⟩

/-- C14: `GET /health` answers 503 when the pool is not initialised, 503 with error
'Database connection unhealthy' and the thrown error's message when the lease or the ping
throws, and 200 with `success: true` when the ping succeeds; the status is always 200 or
503. -/
theorem health_status (pr : Probe) (w : World) :
    ∃ r, (health pr w).1 = .responded r ∧ (r.status = 200 ∨ r.status = 503) ∧
      (w.pool = none → r.status = 503 ∧ r.success = false) ∧
      (∀ e, w.pool.isSome = true →
        (pr.getConnection = .error e ∨ (pr.getConnection = .ok () ∧ pr.ping = .error e)) →
        r.status = 503 ∧ r.success = false ∧ r.error = some "Database connection unhealthy" ∧
          r.message = e.message) ∧
      (w.pool.isSome = true → pr.getConnection = .ok () → pr.ping = .ok () →
        r.status = 200 ∧ r.success = true) := by
  rcases w with ⟨pool, log⟩
  cases pool with
  | none =>
    refine ⟨healthNoPool, rfl, Or.inr rfl, fun _ => ⟨rfl, rfl⟩, ?_, ?_⟩
    · intro e hp; simp at hp
    · intro hp; simp at hp
  | some p =>
    cases hg : pr.getConnection with
    | error e =>
      refine ⟨healthCatch e, by simp [health, healthTry, hg], Or.inr rfl, ?_, ?_, ?_⟩
      · intro h; simp at h
      · intro e2 _ h
        rcases h with h | ⟨h, _⟩
        · cases h; exact ⟨rfl, rfl, rfl, rfl⟩
        · cases h
      · intro _ h; cases h
    | ok c =>
      cases hpg : pr.ping with
      | error e =>
        refine ⟨healthCatch e, by simp [health, healthTry, hg, hpg], Or.inr rfl, ?_, ?_, ?_⟩
        · intro h; simp at h
        · intro e2 _ h
          rcases h with h | ⟨_, h⟩
          · cases h
          · cases h; exact ⟨rfl, rfl, rfl, rfl⟩
        · intro _ _ h; cases h
      | ok c2 =>
        refine ⟨healthOk, by simp [health, healthTry, hg, hpg], Or.inl rfl, ?_, ?_, ?_⟩
        · intro h; simp at h
        · intro e2 _ h
          rcases h with h | ⟨_, h⟩
          · cases h
          · cases h
        · intro _ _ _; exact ⟨rfl, rfl⟩

theorem health_status_witness :
    (∃ r, (health (Probe.pingFails ⟨none, some "read ECONNRESET"⟩) (World.start 0)).1 =
        .responded r ∧ r.status = 503 ∧ r.error = some "Database connection unhealthy" ∧
        r.message = some "read ECONNRESET") ∧
    (∃ r, (health Probe.healthy (World.start 0)).1 = .responded r ∧ r.status = 200 ∧
        r.success = true) ∧
    (∃ r, (health Probe.healthy World.noPool).1 = .responded r ∧ r.status = 503) := by
  obtain ⟨r1, h1, -, -, hb, -⟩ :=
    health_status (Probe.pingFails ⟨none, some "read ECONNRESET"⟩) (World.start 0)
  obtain ⟨r2, h2, -, -, -, hc⟩ := health_status Probe.healthy (World.start 0)
  obtain ⟨r3, h3, -, ha, -, -⟩ := health_status Probe.healthy World.noPool
  obtain ⟨s1, -, s3, s4⟩ := hb ⟨none, some "read ECONNRESET"⟩ rfl (Or.inr ⟨rfl, rfl⟩)
  exact ⟨⟨r1, h1, s1, s3, s4⟩, ⟨r2, h2, hc rfl rfl rfl⟩, ⟨r3, h3, (ha rfl).1⟩⟩

/-! ## Success responses and the missing pool -/

theorem apiQuery_of_success (env : ProcessEnv) (drv : Driver) (requestId : Nat) (query : JsVal)
    (w : World) (t : String) (res : DriverResult) (hv : validateQuery requestId query = .ok t)
    (hp : w.pool.isSome = true) (hg : drv.getConnection = .ok ())
    (hq : drv.query t = .ok res) :
    (apiQuery env drv requestId query w).1 = .responded (successResponse requestId res) := by
  obtain ⟨p, hpool⟩ := Option.isSome_iff_exists.mp hp
  simp [apiQuery, hv, queryTry, hpool, hg, hq]

theorem apiQuerySafe_of_success (env : ProcessEnv) (drv : Driver) (requestId : Nat)
    (query params : JsVal) (w : World) (t : String) (ps : List JsVal) (res : DriverResult)
    (hv : validateQuerySafe requestId query params = .ok (t, ps))
    (hp : w.pool.isSome = true) (hg : drv.getConnection = .ok ())
    (hq : drv.execute t ps = .ok res) :
    (apiQuerySafe env drv requestId query params w).1 =
      .responded (successResponse requestId res) := by
  obtain ⟨p, hpool⟩ := Option.isSome_iff_exists.mp hp
  simp [apiQuerySafe, hv, safeTry, hpool, hg, hq]

theorem apiQuery_of_noPool (env : ProcessEnv) (drv : Driver) (requestId : Nat) (query : JsVal)
    (w : World) (t : String) (hv : validateQuery requestId query = .ok t)
    (hp : w.pool = none) :
    apiQuery env drv requestId query w = (.responded (poolMissing requestId), w) := by
  simp [apiQuery, hv, queryTry, hp, finallyRelease]

theorem apiQuerySafe_of_noPool (env : ProcessEnv) (drv : Driver) (requestId : Nat)
    (query params : JsVal) (w : World) (t : String) (ps : List JsVal)
    (hv : validateQuerySafe requestId query params = .ok (t, ps)) (hp : w.pool = none) :
    apiQuerySafe env drv requestId query params w = (.responded (poolMissing requestId), w) := by
  simp [apiQuerySafe, hv, safeTry, hp, finallyRelease]

/-- C12: when a request passes validation, a connection is leased and the statement
returns, both query endpoints answer 200 with `data` the driver's result unchanged and
`rowCount` the number of rows when the result is an array, the driver's `affectedRows`
otherwise, and 0 when `affectedRows` is absent. -/
theorem success_data_and_rowCount (env : ProcessEnv) (drv : Driver) (requestId : Nat)
    (query querySafe params : JsVal) (w : World) (t ts : String) (ps : List JsVal)
    (res : DriverResult)
    (hv : validateQuery requestId query = .ok t)
    (hvs : validateQuerySafe requestId querySafe params = .ok (ts, ps))
    (hp : w.pool.isSome = true) (hg : drv.getConnection = .ok ())
    (hq : drv.query t = .ok res) (he : drv.execute ts ps = .ok res) :
    (∃ r, (apiQuery env drv requestId query w).1 = .responded r ∧
      r.status = 200 ∧ r.data = some res ∧
      (∀ rs, res = .rows rs → r.rowCount = some rs.length) ∧
      (∀ n, res = .header (some n) → r.rowCount = some n) ∧
      (res = .header none → r.rowCount = some 0)) ∧
    (∃ r, (apiQuerySafe env drv requestId querySafe params w).1 = .responded r ∧
      r.status = 200 ∧ r.data = some res ∧
      (∀ rs, res = .rows rs → r.rowCount = some rs.length) ∧
      (∀ n, res = .header (some n) → r.rowCount = some n) ∧
      (res = .header none → r.rowCount = some 0)) := by
  have hrc : (∀ rs, res = .rows rs → (successResponse requestId res).rowCount = some rs.length) ∧
      (∀ n, res = .header (some n) → (successResponse requestId res).rowCount = some n) ∧
      (res = .header none → (successResponse requestId res).rowCount = some 0) := by
    refine ⟨?_, ?_, ?_⟩
    · intro rs h; subst h; rfl
    · intro n h; subst h; rfl
    · intro h; subst h; rfl
  exact ⟨⟨_, apiQuery_of_success env drv requestId query w t res hv hp hg hq, rfl, rfl, hrc⟩,
    ⟨_, apiQuerySafe_of_success env drv requestId querySafe params w ts ps res hvs hp hg he,
      rfl, rfl, hrc⟩⟩

theorem success_data_and_rowCount_witness :
    (∃ r, (apiQuery sampleEnv (Driver.returning (.rows [.num 1, .num 2, .num 3])) 7
        (.str "SELECT id FROM Flights") (World.start 0)).1 = .responded r ∧
      r.status = 200 ∧ r.rowCount = some 3) ∧
    (∃ r, (apiQuerySafe sampleEnv (Driver.returning (.header (some 4))) 7
        (.str "DELETE FROM Tickets WHERE flight = ?") (.arr [.num 9]) (World.start 0)).1 =
          .responded r ∧
      r.status = 200 ∧ r.rowCount = some 4) ∧
    (∃ r, (apiQuery sampleEnv (Driver.returning (.header none)) 7
        (.str "SET @x = 1") (World.start 0)).1 = .responded r ∧
      r.status = 200 ∧ r.rowCount = some 0) := by
  obtain ⟨⟨r1, a1, a2, -, a4, -, -⟩, -⟩ := success_data_and_rowCount sampleEnv
    (Driver.returning (.rows [.num 1, .num 2, .num 3])) 7 (.str "SELECT id FROM Flights")
    (.str "SELECT id FROM Flights") (.arr []) (World.start 0) "SELECT id FROM Flights"
    "SELECT id FROM Flights" [] (.rows [.num 1, .num 2, .num 3]) rfl rfl rfl rfl rfl rfl
  obtain ⟨-, ⟨r2, b1, b2, -, -, b5, -⟩⟩ := success_data_and_rowCount sampleEnv
    (Driver.returning (.header (some 4))) 7 (.str "DELETE FROM Tickets WHERE flight = 9")
    (.str "DELETE FROM Tickets WHERE flight = ?") (.arr [.num 9]) (World.start 0)
    "DELETE FROM Tickets WHERE flight = 9" "DELETE FROM Tickets WHERE flight = ?" [.num 9]
    (.header (some 4)) rfl rfl rfl rfl rfl rfl
  obtain ⟨⟨r3, c1, c2, -, -, -, c6⟩, -⟩ := success_data_and_rowCount sampleEnv
    (Driver.returning (.header none)) 7 (.str "SET @x = 1") (.str "SET @x = 1") (.arr [])
    (World.start 0) "SET @x = 1" "SET @x = 1" [] (.header none) rfl rfl rfl rfl rfl rfl
  exact ⟨⟨r1, a1, a2, a4 _ rfl⟩, ⟨r2, b1, b2, b5 4 rfl⟩, ⟨r3, c1, c2, c6 rfl⟩⟩

/-- C16: a request that passes validation while `pool` is `null` gets 503 with category
'Service Unavailable' on both query endpoints, and the world is unchanged: nothing is
leased, executed or released. -/
theorem pool_missing_is_503 (env : ProcessEnv) (drv : Driver) (requestId : Nat)
    (query querySafe params : JsVal) (w : World) (t ts : String) (ps : List JsVal)
    (hv : validateQuery requestId query = .ok t)
    (hvs : validateQuerySafe requestId querySafe params = .ok (ts, ps))
    (hp : w.pool = none) :
    (∃ r, apiQuery env drv requestId query w = (.responded r, w) ∧
      r.status = 503 ∧ r.error = some "Service Unavailable") ∧
    (∃ r, apiQuerySafe env drv requestId querySafe params w = (.responded r, w) ∧
      r.status = 503 ∧ r.error = some "Service Unavailable") :=
  ⟨⟨_, apiQuery_of_noPool env drv requestId query w t hv hp, rfl, rfl⟩,
    ⟨_, apiQuerySafe_of_noPool env drv requestId querySafe params w ts ps hvs hp, rfl, rfl⟩⟩

theorem pool_missing_is_503_witness :
    (∃ r, apiQuery sampleEnv (Driver.returning (.rows [])) 7 (.str "SELECT 1") World.noPool =
        (.responded r, World.noPool) ∧ r.status = 503 ∧ r.error = some "Service Unavailable") ∧
    (∃ r, apiQuerySafe sampleEnv (Driver.returning (.rows [])) 7 (.str "SELECT ?")
        (.arr [.num 1]) World.noPool =
        (.responded r, World.noPool) ∧ r.status = 503 ∧ r.error = some "Service Unavailable") :=
  pool_missing_is_503 sampleEnv (Driver.returning (.rows [])) 7 (.str "SELECT 1")
    (.str "SELECT ?") (.arr [.num 1]) World.noPool "SELECT 1" "SELECT ?" [.num 1] rfl rfl rfl

/-- C20: for the same driver result the success responses of `/api/query` and of
`/api/query-safe` agree: both are 200 with `success: true`, the same `data`, the same
`rowCount` and the same `message`, each carries its `requestId` and a `timestamp`, and
neither carries `error`, `details` or `code`. -/
theorem success_shape_shared (env : ProcessEnv) (drv : Driver) (idQuery idSafe : Nat)
    (query querySafe params : JsVal) (w : World) (t ts : String) (ps : List JsVal)
    (res : DriverResult)
    (hv : validateQuery idQuery query = .ok t)
    (hvs : validateQuerySafe idSafe querySafe params = .ok (ts, ps))
    (hp : w.pool.isSome = true) (hg : drv.getConnection = .ok ())
    (hq : drv.query t = .ok res) (he : drv.execute ts ps = .ok res) :
    ∃ rq rs, (apiQuery env drv idQuery query w).1 = .responded rq ∧
      (apiQuerySafe env drv idSafe querySafe params w).1 = .responded rs ∧
      rq.status = 200 ∧ rs.status = 200 ∧ rq.success = true ∧ rs.success = true ∧
      rq.data = some res ∧ rs.data = some res ∧ rq.rowCount = rs.rowCount ∧
      rq.rowCount.isSome = true ∧ rq.message = rs.message ∧
      rq.requestId = some idQuery ∧ rs.requestId = some idSafe ∧
      rq.timestamp = true ∧ rs.timestamp = true ∧
      rq.error = none ∧ rs.error = none ∧ rq.details = none ∧ rs.details = none ∧
      rq.code = none ∧ rs.code = none :=
  ⟨_, _, apiQuery_of_success env drv idQuery query w t res hv hp hg hq,
    apiQuerySafe_of_success env drv idSafe querySafe params w ts ps res hvs hp hg he,
    rfl, rfl, rfl, rfl, rfl, rfl, rfl, rfl, rfl, rfl, rfl, rfl, rfl, rfl, rfl, rfl, rfl, rfl,
    rfl⟩

theorem success_shape_shared_witness :
    ∃ rq rs, (apiQuery sampleEnv (Driver.returning (.rows [.num 5])) 7
        (.str "SELECT 2 + 3 AS sum") (World.start 0)).1 = .responded rq ∧
      (apiQuerySafe sampleEnv (Driver.returning (.rows [.num 5])) 8
        (.str "SELECT ? + ? AS sum") (.arr [.num 2, .num 3]) (World.start 0)).1 =
          .responded rs ∧
      rq.status = 200 ∧ rs.status = 200 ∧ rq.rowCount = rs.rowCount ∧
      rq.requestId = some 7 ∧ rs.requestId = some 8 := by
  obtain ⟨rq, rs, h1, h2, h3, h4, -, -, -, -, h9, -, -, h12, h13, -⟩ :=
    success_shape_shared sampleEnv (Driver.returning (.rows [.num 5])) 7 8
      (.str "SELECT 2 + 3 AS sum") (.str "SELECT ? + ? AS sum") (.arr [.num 2, .num 3])
      (World.start 0) "SELECT 2 + 3 AS sum" "SELECT ? + ? AS sum" [.num 2, .num 3]
      (.rows [.num 5]) rfl rfl rfl rfl rfl rfl
  exact ⟨rq, rs, h1, h2, h3, h4, h9, h12, h13⟩

/-! ## Database-error responses -/

theorem queryCatch_table_shape (env : ProcessEnv) (requestId : Nat) (e : DbError) (c : String)
    (st : Nat) (cat : String) (hc : e.code = some c) (ht : (c, st, cat) ∈ specErrorRows) :
    (queryCatch env requestId e).success = false ∧
      (queryCatch env requestId e).message.isSome = true ∧
      (queryCatch env requestId e).requestId = some requestId ∧
      (queryCatch env requestId e).timestamp = true := by
  simp only [specErrorRows, List.mem_cons, Prod.mk.injEq, List.mem_singleton, List.not_mem_nil,
    or_false] at ht
  rcases ht with ⟨rfl, rfl, rfl⟩ | ⟨rfl, rfl, rfl⟩ | ⟨rfl, rfl, rfl⟩ | ⟨rfl, rfl, rfl⟩ |
    ⟨rfl, rfl, rfl⟩ | ⟨rfl, rfl, rfl⟩ | ⟨rfl, rfl, rfl⟩ | ⟨rfl, rfl, rfl⟩ | ⟨rfl, rfl, rfl⟩ |
    ⟨rfl, rfl, rfl⟩ | ⟨rfl, rfl, rfl⟩ | ⟨rfl, rfl, rfl⟩ <;>
  simp [queryCatch, orDefault, hc]

theorem specErrorRows_status_mem (row : String × Nat × String) (h : row ∈ specErrorRows) :
    row.2.1 ∈ errorStatuses := by
  revert row
  decide

theorem queryCatch_shape (env : ProcessEnv) (requestId : Nat) (e : DbError) :
    (queryCatch env requestId e).success = false ∧
      (queryCatch env requestId e).status ∈ errorStatuses ∧
      (queryCatch env requestId e).error.isSome = true ∧
      (queryCatch env requestId e).message.isSome = true ∧
      (queryCatch env requestId e).requestId = some requestId ∧
      (queryCatch env requestId e).timestamp = true := by
  by_cases h : ∃ c, e.code = some c ∧ c ∈ mappedCodes
  · obtain ⟨c, hc, hm⟩ := h
    obtain ⟨⟨c2, st, cat⟩, hrow, hfst⟩ := List.mem_map.mp hm
    have hcc : c2 = c := hfst
    subst hcc
    obtain ⟨hst, herr⟩ := queryCatch_table env requestId e c2 st cat hc hrow
    obtain ⟨h1, h2, h3, h4⟩ := queryCatch_table_shape env requestId e c2 st cat hc hrow
    refine ⟨h1, ?_, ?_, h2, h3, h4⟩
    · rw [hst]; exact specErrorRows_status_mem _ hrow
    · rw [herr]; rfl
  · have hun : ∀ c, e.code = some c → c ∉ mappedCodes := fun c hc hm => h ⟨c, hc, hm⟩
    rw [queryCatch_unmapped env requestId e hun]
    exact ⟨rfl, by simp [errorStatuses], rfl, rfl, rfl, rfl⟩

theorem safeCatch_shape (env : ProcessEnv) (requestId : Nat) (e : DbError) :
    (safeCatch env requestId e).success = false ∧
      (safeCatch env requestId e).status ∈ errorStatuses ∧
      (safeCatch env requestId e).error.isSome = true ∧
      (safeCatch env requestId e).message.isSome = true ∧
      (safeCatch env requestId e).requestId = some requestId ∧
      (safeCatch env requestId e).timestamp = false := by
  rcases e with ⟨code, msg⟩
  cases code with
  | none => simp [safeCatch, orDefault, errorStatuses]
  | some c =>
    by_cases h1 : c = "ER_ACCESS_DENIED_ERROR"
    · subst h1; simp [safeCatch, orDefault, errorStatuses]
    by_cases h2 : c = "ER_BAD_DB_ERROR"
    · subst h2; simp [safeCatch, orDefault, errorStatuses]
    by_cases h3 : c = "ER_SYNTAX_ERROR"
    · subst h3; simp [safeCatch, orDefault, errorStatuses]
    by_cases h4 : c = "ER_PARSE_ERROR"
    · subst h4; simp [safeCatch, orDefault, errorStatuses]
    by_cases h5 : c = "ECONNREFUSED"
    · subst h5; simp [safeCatch, orDefault, errorStatuses]
    by_cases hc : c = ""
    · subst hc; simp [safeCatch, orDefault, errorStatuses]
    · simp [safeCatch, orDefault, errorStatuses, h1, h2, h3, h4, h5, hc]

/-- C15: evaluation of the code where the claim fails. For the same driver error the
database-error response of `/api/query` carries `error`, `message`, `requestId` and
`timestamp`, while the one of `/api/query-safe` carries no `timestamp`. -/
theorem querySafe_error_without_timestamp :
    (∃ r, (apiQuery sampleEnv (Driver.failing ⟨some "ER_PARSE_ERROR", some "near SELEC"⟩) 7
        (.str "SELEC 1") (World.start 0)).1 = .responded r ∧
      r.status = 400 ∧ r.success = false ∧ r.error = some "SQL Syntax Error" ∧
      r.message.isSome = true ∧ r.requestId = some 7 ∧ r.timestamp = true) ∧
    (∃ r, (apiQuerySafe sampleEnv (Driver.failing ⟨some "ER_PARSE_ERROR", some "near SELEC"⟩) 7
        (.str "SELEC ?") (.arr [.num 1]) (World.start 0)).1 = .responded r ∧
      r.status = 400 ∧ r.success = false ∧ r.error = some "SQL Syntax Error" ∧
      r.message.isSome = true ∧ r.requestId = some 7 ∧ r.timestamp = false) :=
  ⟨⟨_, rfl, rfl, rfl, rfl, rfl, rfl, rfl⟩, ⟨_, rfl, rfl, rfl, rfl, rfl, rfl, rfl⟩⟩

/-- C17: for a request that passed validation, every error thrown by the lease or by the
statement, whatever its code and message, is answered by `/api/query` and by
`/api/query-safe` with one response whose `success` is false and whose status is one of
400, 401, 404, 413, 500, 503, 504; no exception leaves the handler. -/
theorem database_errors_do_not_escape (env : ProcessEnv) (drv : Driver) (requestId : Nat)
    (query querySafe params : JsVal) (w : World) (t ts : String) (ps : List JsVal) (e : DbError)
    (hv : validateQuery requestId query = .ok t)
    (hvs : validateQuerySafe requestId querySafe params = .ok (ts, ps))
    (hp : w.pool.isSome = true)
    (hthrow : drv.queryThrows t e) (hthrows : drv.executeThrows ts ps e) :
    (∃ r, (apiQuery env drv requestId query w).1 = .responded r ∧
      r.success = false ∧ r.status ∈ errorStatuses) ∧
    (∃ r, (apiQuerySafe env drv requestId querySafe params w).1 = .responded r ∧
      r.success = false ∧ r.status ∈ errorStatuses) :=
  ⟨⟨_, apiQuery_of_throw env drv requestId query w t e hv hp hthrow,
      (queryCatch_shape env requestId e).1, (queryCatch_shape env requestId e).2.1⟩,
    ⟨_, apiQuerySafe_of_throw env drv requestId querySafe params w ts ps e hvs hp hthrows,
      (safeCatch_shape env requestId e).1, (safeCatch_shape env requestId e).2.1⟩⟩

theorem database_errors_do_not_escape_witness :
    (∃ r, (apiQuery sampleEnv (Driver.failing ⟨none, none⟩) 7 (.str "SELECT 1")
        (World.start 0)).1 = .responded r ∧ r.success = false ∧ r.status ∈ errorStatuses) ∧
    (∃ r, (apiQuerySafe sampleEnv (Driver.failing ⟨none, none⟩) 7 (.str "SELECT ?")
        (.arr [.num 1]) (World.start 0)).1 = .responded r ∧
      r.success = false ∧ r.status ∈ errorStatuses) :=
  database_errors_do_not_escape sampleEnv (Driver.failing ⟨none, none⟩) 7 (.str "SELECT 1")
    (.str "SELECT ?") (.arr [.num 1]) (World.start 0) "SELECT 1" "SELECT ?" [.num 1]
    ⟨none, none⟩ rfl rfl rfl (Or.inr ⟨rfl, rfl⟩) (Or.inr ⟨rfl, rfl⟩)

/-! ## Validation comes before the pool -/

theorem apiQuerySafe_of_invalid (env : ProcessEnv) (drv : Driver) (requestId : Nat)
    (query params : JsVal) (w : World) (out : Outcome)
    (h : validateQuerySafe requestId query params = .error out) :
    apiQuerySafe env drv requestId query params w = (out, w) := by
  simp [apiQuerySafe, h]

theorem validateQuerySafe_replicate (requestId n : Nat) (hn : 0 < n) (ps : List JsVal) :
    validateQuerySafe requestId (.str ⟨List.replicate n 'a'⟩) (.arr ps) =
      .ok (⟨List.replicate n 'a'⟩, ps) := by
  have hl : jsLength ⟨List.replicate n 'a'⟩ ≠ 0 := by
    rw [jsLength_replicate_a]; omega
  simp [validateQuerySafe, str_replicate_truthy n hn, jsTrim_replicate_a, hl]

/-- C13: evaluation of the code where the claim fails. While `pool` is `null`, a `query`
that is a number makes `POST /api/query-safe` throw instead of answering 400, and a `query`
of 100,001 letters reaches the pool test and gets 503 'Service Unavailable'; with a pool the
same statement is leased a connection and executed. `POST /api/query` answers 400 to both
without touching the pool. -/
theorem querySafe_invalid_query_reaches_pool :
    apiQuerySafe sampleEnv (Driver.returning (.rows [])) 7 (.num 5) (.arr []) World.noPool =
      (.threw (.typeError "query.trim is not a function"), World.noPool) ∧
    (∃ r, apiQuerySafe sampleEnv (Driver.returning (.rows [])) 7
        (.str ⟨List.replicate 100001 'a'⟩) (.arr []) World.noPool =
          (.responded r, World.noPool) ∧
      r.status = 503 ∧ r.error = some "Service Unavailable") ∧
    (apiQuerySafe sampleEnv (Driver.returning (.rows [])) 7
        (.str ⟨List.replicate 100001 'a'⟩) (.arr []) (World.start 0)).2.log =
      [Event.acquire, Event.runExecute ⟨List.replicate 100001 'a'⟩ [], Event.release] ∧
    apiQuery sampleEnv (Driver.returning (.rows [])) 7 (.num 5) World.noPool =
      (.responded (badRequest 7 "Query must be a string"), World.noPool) ∧
    apiQuery sampleEnv (Driver.returning (.rows [])) 7 (.str ⟨List.replicate 100001 'a'⟩)
        World.noPool =
      (.responded (badRequest 7 "Query exceeds maximum allowed length (100,000 characters)"),
        World.noPool) := by
  refine ⟨rfl, ⟨_, apiQuerySafe_of_noPool sampleEnv _ 7 _ _ World.noPool _ _
      (validateQuerySafe_replicate 7 100001 (by omega) []) rfl, rfl, rfl⟩, ?_, rfl,
    apiQuery_replicate_too_long sampleEnv _ 7 100001 (by omega) _⟩
  rw [apiQuerySafe_replicate sampleEnv 7 100001 0 (by omega) (.rows []) []]

/-! ## Startup check -/

theorem mem_missingEnvVars (env : ProcessEnv) (name : String) :
    name ∈ missingEnvVars env ↔
      name ∈ requiredEnvVars ∧ (env name = none ∨ env name = some "") := by
  unfold missingEnvVars
  rw [List.mem_filter]
  apply and_congr_right
  intro _
  cases h : env name with
  | none => simp [envTruthy]
  | some v => simp [envTruthy]

/-- C18 (the claim as stated fails): with `DB_PASSWORD` defined and empty and the other four
variables set, no mandatory variable is absent from the environment, yet `DB_PASSWORD` is
reported as missing and the process exits with status 1. -/
theorem missingEnvVars_lists_empty_value :
    emptyPasswordEnv "DB_PASSWORD" = some "" ∧
    specAbsentVars emptyPasswordEnv = [] ∧
    missingEnvVars emptyPasswordEnv = ["DB_PASSWORD"] ∧
    envCheck emptyPasswordEnv =
      some ("ERROR: Missing required environment variables: DB_PASSWORD", 1) := by
  refine ⟨rfl, ?_, ?_, ?_⟩ <;> decide

/-- C18 (amended): the names reported as missing are exactly the mandatory variables that
are unset or set to the empty string, in the fixed order of `requiredEnvVars`; the process
exits, with status 1 and a diagnostic, exactly when that list is non-empty. -/
theorem missingEnvVars_exact (env : ProcessEnv) :
    List.Sublist (missingEnvVars env) requiredEnvVars ∧
    requiredEnvVars = ["DB_HOST", "DB_USER", "DB_PASSWORD", "DB_NAME", "SERVER_PORT"] ∧
    (∀ name, name ∈ missingEnvVars env ↔
      name ∈ requiredEnvVars ∧ (env name = none ∨ env name = some "")) ∧
    ((∃ msg, envCheck env = some (msg, 1)) ↔ missingEnvVars env ≠ []) ∧
    (envCheck env = none ↔ missingEnvVars env = []) ∧
    (∀ out, envCheck env = some out → out.2 = 1) := by
  refine ⟨List.filter_sublist _, rfl, mem_missingEnvVars env, ?_, ?_, ?_⟩
  all_goals
    unfold envCheck
    cases hm : missingEnvVars env with
    | nil => simp
    | cons a l => simp

theorem missingEnvVars_exact_witness :
    "DB_PASSWORD" ∈ missingEnvVars emptyPasswordEnv ∧ "DB_HOST" ∉ missingEnvVars emptyPasswordEnv ∧
    ∃ msg, envCheck emptyPasswordEnv = some (msg, 1) := by
  obtain ⟨-, -, hmem, hexit, -, -⟩ := missingEnvVars_exact emptyPasswordEnv
  refine ⟨(hmem "DB_PASSWORD").mpr ⟨by decide, Or.inr rfl⟩, ?_, hexit.mpr ?_⟩
  · intro h
    have h2 := ((hmem "DB_HOST").mp h).2
    revert h2
    decide
  · intro h
    have h3 := (hmem "DB_PASSWORD").mpr ⟨by decide, Or.inr rfl⟩
    rw [h] at h3
    cases h3

/-! ## Error messages and the environment mode -/

/-- C19 (the claim as stated fails): in production mode the generic 500 'Database Error'
response of both query endpoints carries the message of the driver error. -/
theorem generic_fallback_echoes_message_in_production :
    productionEnv "NODE_ENV" = some "production" ∧
    (∃ r, (apiQuery productionEnv
        (Driver.failing ⟨some "ER_DUP_ENTRY", some "Duplicate entry 7 for key PRIMARY"⟩) 7
        (.str "INSERT INTO Airlines VALUES (7)") (World.start 0)).1 = .responded r ∧
      r.status = 500 ∧ r.error = some "Database Error" ∧
      r.message = some "Duplicate entry 7 for key PRIMARY") ∧
    (∃ r, (apiQuerySafe productionEnv
        (Driver.failing ⟨some "ER_DUP_ENTRY", some "Duplicate entry 7 for key PRIMARY"⟩) 7
        (.str "INSERT INTO Airlines VALUES (?)") (.arr [.num 7]) (World.start 0)).1 =
          .responded r ∧
      r.status = 500 ∧ r.error = some "Database Error" ∧
      r.message = some "Duplicate entry 7 for key PRIMARY") :=
  ⟨rfl, ⟨_, rfl, rfl, rfl, rfl⟩, ⟨_, rfl, rfl, rfl, rfl⟩⟩

/-- C19 (amended): only the error-handling middleware looks at `NODE_ENV`: its 500 response
carries the error's message when `NODE_ENV` is 'development' and the fixed text
'An unexpected error occurred' otherwise. The generic 500 'Database Error' response of both
query endpoints carries the driver's message (or 'Unknown database error' when the error has
none) whatever the environment is. -/
theorem error_message_gating (env : ProcessEnv) (drv : Driver) (requestId : Nat)
    (query querySafe params : JsVal) (w : World) (t ts : String) (ps : List JsVal)
    (e err : DbError)
    (hv : validateQuery requestId query = .ok t)
    (hvs : validateQuerySafe requestId querySafe params = .ok (ts, ps))
    (hp : w.pool.isSome = true)
    (hthrow : drv.queryThrows t e) (hthrows : drv.executeThrows ts ps e)
    (hun : ∀ c, e.code = some c → c ∉ mappedCodes) :
    ((errorMiddleware env err).status = 500 ∧
      (env "NODE_ENV" = some "development" → (errorMiddleware env err).message = err.message) ∧
      (env "NODE_ENV" ≠ some "development" →
        (errorMiddleware env err).message = some "An unexpected error occurred")) ∧
    (∃ r, (apiQuery env drv requestId query w).1 = .responded r ∧ r.status = 500 ∧
      (∀ m, e.message = some m → m ≠ "" → r.message = some m) ∧
      (e.message = none → r.message = some "Unknown database error")) ∧
    (∃ r, (apiQuerySafe env drv requestId querySafe params w).1 = .responded r ∧
      r.status = 500 ∧
      (∀ m, e.message = some m → m ≠ "" → r.message = some m) ∧
      (e.message = none → r.message = some "Unknown database error")) := by
  refine ⟨⟨rfl, ?_, ?_⟩,
    ⟨_, apiQuery_of_throw env drv requestId query w t e hv hp hthrow, ?_⟩,
    ⟨_, apiQuerySafe_of_throw env drv requestId querySafe params w ts ps e hvs hp hthrows, ?_⟩⟩
  · intro h; simp [errorMiddleware, h]
  · intro h; simp [errorMiddleware, h]
  · rw [queryCatch_unmapped env requestId e hun]
    refine ⟨rfl, ?_, ?_⟩
    · intro m hm hne
      simp [hm, orDefault_of_code m _ hne]
    · intro hm
      simp [hm, orDefault]
  · rw [safeCatch_unmapped env requestId e hun]
    refine ⟨rfl, ?_, ?_⟩
    · intro m hm hne
      simp [hm, orDefault_of_code m _ hne]
    · intro hm
      simp [hm, orDefault]

theorem error_message_gating_witness :
    (errorMiddleware productionEnv ⟨none, some "Cannot read properties of undefined"⟩).message =
      some "An unexpected error occurred" ∧
    (errorMiddleware developmentEnv ⟨none, some "Cannot read properties of undefined"⟩).message =
      some "Cannot read properties of undefined" ∧
    (∃ r, (apiQuery productionEnv (Driver.failing ⟨some "ER_DUP_ENTRY", some "Duplicate"⟩) 7
        (.str "INSERT INTO Airlines VALUES (7)") (World.start 0)).1 = .responded r ∧
      r.status = 500 ∧ r.message = some "Duplicate") := by
  obtain ⟨⟨-, -, hprod⟩, ⟨r, h1, h2, h3, -⟩, -⟩ := error_message_gating productionEnv
    (Driver.failing ⟨some "ER_DUP_ENTRY", some "Duplicate"⟩) 7
    (.str "INSERT INTO Airlines VALUES (7)") (.str "INSERT INTO Airlines VALUES (?)")
    (.arr [.num 7]) (World.start 0) "INSERT INTO Airlines VALUES (7)"
    "INSERT INTO Airlines VALUES (?)" [.num 7] ⟨some "ER_DUP_ENTRY", some "Duplicate"⟩
    ⟨none, some "Cannot read properties of undefined"⟩ rfl rfl rfl
    (Or.inr ⟨rfl, rfl⟩) (Or.inr ⟨rfl, rfl⟩)
    (by intro c hc; cases hc; simp [mappedCodes, specErrorRows])
  obtain ⟨⟨-, hdev, -⟩, -, -⟩ := error_message_gating developmentEnv
    (Driver.failing ⟨some "ER_DUP_ENTRY", some "Duplicate"⟩) 7
    (.str "INSERT INTO Airlines VALUES (7)") (.str "INSERT INTO Airlines VALUES (?)")
    (.arr [.num 7]) (World.start 0) "INSERT INTO Airlines VALUES (7)"
    "INSERT INTO Airlines VALUES (?)" [.num 7] ⟨some "ER_DUP_ENTRY", some "Duplicate"⟩
    ⟨none, some "Cannot read properties of undefined"⟩ rfl rfl rfl
    (Or.inr ⟨rfl, rfl⟩) (Or.inr ⟨rfl, rfl⟩)
    (by intro c hc; cases hc; simp [mappedCodes, specErrorRows])
  exact ⟨hprod (by decide), hdev rfl, ⟨r, h1, h2, h3 _ rfl (by decide)⟩⟩

/-! ## The statement handed to the driver -/

theorem str_truthy_of_trim (s : String) (hne : jsLength (jsTrim s) ≠ 0) :
    (JsVal.str s).truthy = true := by
  rcases s with ⟨cs⟩
  cases cs with
  | nil => simp [jsTrim, trimStart, trimEnd, jsLength] at hne
  | cons c cs => simp [JsVal.truthy, bne_iff_ne, String.ext_iff]

theorem validateQuery_of_str (requestId : Nat) (s : String) (hne : jsLength (jsTrim s) ≠ 0)
    (hle : jsLength (jsTrim s) ≤ 100000) :
    validateQuery requestId (.str s) = .ok (jsTrim s) := by
  have hgt : ¬ 100000 < jsLength (jsTrim s) := by omega
  simp [validateQuery, str_truthy_of_trim s hne, hne, hgt]

theorem validateQuerySafe_of_str (requestId : Nat) (s : String) (ps : List JsVal)
    (hne : jsLength (jsTrim s) ≠ 0) :
    validateQuerySafe requestId (.str s) (.arr ps) = .ok (jsTrim s, ps) := by
  simp [validateQuerySafe, str_truthy_of_trim s hne, hne]

/-- C21: for a string `query` that passes validation and a leased connection, `/api/query`
calls `connection.query` with exactly `query.trim()` and `/api/query-safe` calls
`connection.execute` with exactly `query.trim()` and the elements of `params` in their
order; the response is built from the driver's answer to that statement. -/
theorem statement_is_trimmed_query (env : ProcessEnv) (drv : Driver) (requestId : Nat)
    (s : String) (ps : List JsVal) (w : World)
    (hne : jsLength (jsTrim s) ≠ 0) (hle : jsLength (jsTrim s) ≤ 100000)
    (hp : w.pool.isSome = true) (hg : drv.getConnection = .ok ()) :
    (apiQuery env drv requestId (.str s) w).2.log =
      w.log ++ [Event.acquire, Event.runQuery (jsTrim s), Event.release] ∧
    (apiQuerySafe env drv requestId (.str s) (.arr ps) w).2.log =
      w.log ++ [Event.acquire, Event.runExecute (jsTrim s) ps, Event.release] ∧
    (∀ res, drv.query (jsTrim s) = .ok res →
      (apiQuery env drv requestId (.str s) w).1 = .responded (successResponse requestId res)) ∧
    (∀ res, drv.execute (jsTrim s) ps = .ok res →
      (apiQuerySafe env drv requestId (.str s) (.arr ps) w).1 =
        .responded (successResponse requestId res)) :=
  ⟨apiQuery_leased_log env drv requestId (.str s) w (jsTrim s)
      (validateQuery_of_str requestId s hne hle) hp hg,
    apiQuerySafe_leased_log env drv requestId (.str s) (.arr ps) w (jsTrim s) ps
      (validateQuerySafe_of_str requestId s ps hne) hp hg,
    fun res hq => apiQuery_of_success env drv requestId (.str s) w (jsTrim s) res
      (validateQuery_of_str requestId s hne hle) hp hg hq,
    fun res hq => apiQuerySafe_of_success env drv requestId (.str s) (.arr ps) w (jsTrim s) ps res
      (validateQuerySafe_of_str requestId s ps hne) hp hg hq⟩

theorem statement_is_trimmed_query_witness :
    (apiQuery sampleEnv (Driver.returning (.rows [])) 7 (.str "  SELECT 1 ;  ")
        (World.start 0)).2.log =
      [Event.acquire, Event.runQuery "SELECT 1 ;", Event.release] ∧
    (apiQuerySafe sampleEnv (Driver.returning (.rows [])) 7 (.str "\n SELECT ? + ? AS sum\n")
        (.arr [.num 2, .num 3]) (World.start 0)).2.log =
      [Event.acquire, Event.runExecute "SELECT ? + ? AS sum" [.num 2, .num 3],
        Event.release] :=
  ⟨(statement_is_trimmed_query sampleEnv (Driver.returning (.rows [])) 7 "  SELECT 1 ;  " []
      (World.start 0) (by decide) (by decide) rfl rfl).1,
    (statement_is_trimmed_query sampleEnv (Driver.returning (.rows [])) 7
      "\n SELECT ? + ? AS sum\n" [.num 2, .num 3] (World.start 0) (by decide) (by decide)
      rfl rfl).2.1⟩

/-! ## Unmatched routes -/

/-- C22 (the claim as stated fails): `OPTIONS /nope`, `GET /health/`, `GET /HEALTH` and
`HEAD /health` are not among the three listed endpoints, yet none of them reaches the 404
handler: the CORS middleware answers the first and the health route serves the others. A
request whose body the parsers reject is answered by the error-handling middleware. -/
theorem unlisted_request_without_404 :
    ("OPTIONS", "/nope") ∉ listedEndpoints ∧
    serve ⟨"OPTIONS", "/nope", true⟩ = .preflight ∧
    ("GET", "/health/") ∉ listedEndpoints ∧
    serve ⟨"GET", "/health/", true⟩ = .health ∧
    ("GET", "/HEALTH") ∉ listedEndpoints ∧
    serve ⟨"GET", "/HEALTH", true⟩ = .health ∧
    ("HEAD", "/health") ∉ listedEndpoints ∧
    serve ⟨"HEAD", "/health", true⟩ = .health ∧
    ("POST", "/nope") ∉ listedEndpoints ∧
    serve ⟨"POST", "/nope", false⟩ = .bodyError :=
  ⟨by decide, rfl, by decide, rfl, by decide, rfl, by decide, rfl, by decide, rfl⟩

theorem serve_of_unmatched (req : Request) (hm : (req.method == "OPTIONS") = false)
    (hb : req.bodyParses = true) (h1 : routeMatches "GET" "/health" req = false)
    (h2 : routeMatches "POST" "/api/query" req = false)
    (h3 : routeMatches "POST" "/api/query-safe" req = false) :
    serve req = .notFound (notFound req) := by
  simp [serve, hm, hb, h1, h2, h3]

/-- C22 (amended): a request reaches the 404 handler exactly when it is not an OPTIONS
request, the body parsers accept its body and none of the three routes matches it, where a
route matches its own method (and HEAD for the GET route) and its path without regard to
case and with an optional trailing slash. The 404 handler then answers with status 404,
`success: false`, error 'Not Found' and `availableEndpoints` exactly the three endpoints;
this holds for a defined path with another method such as `GET /api/query`. -/
theorem unmatched_request_is_404 (req : Request) :
    ((req.method ≠ "OPTIONS" ∧ req.bodyParses = true ∧
        routeMatches "GET" "/health" req = false ∧
        routeMatches "POST" "/api/query" req = false ∧
        routeMatches "POST" "/api/query-safe" req = false) →
      ∃ r, serve req = .notFound r ∧ r.status = 404 ∧ r.success = false ∧
        r.error = "Not Found" ∧
        r.message = "Endpoint " ++ req.method ++ " " ++ req.path ++ " does not exist" ∧
        r.availableEndpoints = ["GET /health", "POST /api/query", "POST /api/query-safe"]) ∧
    ((∃ r, serve req = .notFound r) →
      req.method ≠ "OPTIONS" ∧ req.bodyParses = true ∧
        routeMatches "GET" "/health" req = false ∧
        routeMatches "POST" "/api/query" req = false ∧
        routeMatches "POST" "/api/query-safe" req = false) := by
  constructor
  · rintro ⟨hm, hb, h1, h2, h3⟩
    have hm2 : (req.method == "OPTIONS") = false := by simpa using hm
    exact ⟨notFound req, serve_of_unmatched req hm2 hb h1 h2 h3, rfl, rfl, rfl, rfl, rfl⟩
  · rintro ⟨r, hr⟩
    unfold serve at hr
    by_cases hm : (req.method == "OPTIONS") = true
    · simp [hm] at hr
    · have hm2 : (req.method == "OPTIONS") = false := by simpa using hm
      cases hb : req.bodyParses with
      | false => simp [hm2, hb] at hr
      | true =>
        cases h1 : routeMatches "GET" "/health" req with
        | true => simp [hm2, hb, h1] at hr
        | false =>
          cases h2 : routeMatches "POST" "/api/query" req with
          | true => simp [hm2, hb, h1, h2] at hr
          | false =>
            cases h3 : routeMatches "POST" "/api/query-safe" req with
            | true => simp [hm2, hb, h1, h2, h3] at hr
            | false =>
              refine ⟨?_, rfl, rfl, rfl, rfl⟩
              intro h
              rw [h] at hm2
              revert hm2
              decide

theorem unmatched_request_is_404_witness :
    (∃ r, serve ⟨"GET", "/api/query", true⟩ = .notFound r ∧ r.status = 404 ∧
      r.message = "Endpoint GET /api/query does not exist" ∧
      r.availableEndpoints = ["GET /health", "POST /api/query", "POST /api/query-safe"]) ∧
    (∃ r, serve ⟨"GET", "/nope", true⟩ = .notFound r ∧ r.status = 404 ∧
      r.error = "Not Found") := by
  obtain ⟨r, h1, h2, -, -, h5, h6⟩ :=
    (unmatched_request_is_404 ⟨"GET", "/api/query", true⟩).1
      ⟨by decide, rfl, by decide, by decide, by decide⟩
  obtain ⟨r2, k1, k2, -, k4, -⟩ :=
    (unmatched_request_is_404 ⟨"GET", "/nope", true⟩).1
      ⟨by decide, rfl, by decide, by decide, by decide⟩
  exact ⟨⟨r, h1, h2, by rw [h5]; decide, h6⟩, ⟨r2, k1, k2, k4⟩⟩

/-! ## The body of the 503 responses of `/health` -/

/-- C23 (the claim as stated fails): when the pool has not been initialised the 503 response
of `GET /health` has `success: false` and `error`, but neither `message` nor `timestamp`. -/
theorem health_no_pool_body_is_short :
    ∃ r, (health Probe.healthy World.noPool).1 = .responded r ∧ r.status = 503 ∧
      r.success = false ∧ r.error = some "Database pool not initialized" ∧
      r.message = none ∧ r.timestamp = false :=
  ⟨_, rfl, rfl, rfl, rfl, rfl, rfl⟩

/-- C23 (amended): every 503 response of `GET /health` has `success: false` and an `error`
field. The one sent when the lease or the ping throws also has a `timestamp` and, as
`message`, the message of the thrown error; the one sent when the pool has not been
initialised has neither `message` nor `timestamp`. -/
theorem health_503_body (pr : Probe) (w : World) (r : Response)
    (hr : (health pr w).1 = .responded r) (hst : r.status = 503) :
    r.success = false ∧ r.error.isSome = true ∧
    (w.pool = none → r.error = some "Database pool not initialized" ∧ r.message = none ∧
      r.timestamp = false) ∧
    (w.pool.isSome = true → r.error = some "Database connection unhealthy" ∧
      r.timestamp = true ∧
      ∃ e, (pr.getConnection = .error e ∨ (pr.getConnection = .ok () ∧ pr.ping = .error e)) ∧
        r.message = e.message) := by
  rcases w with ⟨pool, log⟩
  cases pool with
  | none =>
    have h : r = healthNoPool := by
      simp [health, healthTry] at hr
      exact hr.symm
    subst h
    refine ⟨rfl, rfl, fun _ => ⟨rfl, rfl, rfl⟩, ?_⟩
    intro hp; simp at hp
  | some p =>
    cases hg : pr.getConnection with
    | error e =>
      have h : r = healthCatch e := by
        simp [health, healthTry, hg] at hr
        exact hr.symm
      subst h
      refine ⟨rfl, rfl, ?_, fun _ => ⟨rfl, rfl, e, Or.inl rfl, rfl⟩⟩
      intro hp; simp at hp
    | ok c =>
      cases hpg : pr.ping with
      | error e =>
        have h : r = healthCatch e := by
          simp [health, healthTry, hg, hpg] at hr
          exact hr.symm
        subst h
        refine ⟨rfl, rfl, ?_, fun _ => ⟨rfl, rfl, e, Or.inr ⟨rfl, rfl⟩, rfl⟩⟩
        intro hp; simp at hp
      | ok c2 =>
        have h : r = healthOk := by
          simp [health, healthTry, hg, hpg] at hr
          exact hr.symm
        subst h
        simp [healthOk] at hst

theorem health_503_body_witness :
    (healthCatch ⟨none, some "read ECONNRESET"⟩).success = false ∧
    (healthCatch ⟨none, some "read ECONNRESET"⟩).error = some "Database connection unhealthy" ∧
    (healthCatch ⟨none, some "read ECONNRESET"⟩).timestamp = true := by
  obtain ⟨h1, -, -, h4⟩ := health_503_body (Probe.pingFails ⟨none, some "read ECONNRESET"⟩)
    (World.start 0) (healthCatch ⟨none, some "read ECONNRESET"⟩) rfl rfl
  obtain ⟨h5, h6, -⟩ := h4 rfl
  exact ⟨h1, h5, h6⟩

/-! ## Startup -/

theorem smokeSeed_log (b : Boot) (isZero : Bool) (w : World) :
    (smokeSeed b isZero w).2.pool = w.pool ∧
      ∃ qs, (smokeSeed b isZero w).2.log = w.log ++ List.map Event.runQuery qs := by
  cases isZero with
  | false => exact ⟨rfl, [], by simp [smokeSeed]⟩
  | true =>
    cases hq : b.query insertQuery <;>
      exact ⟨by simp [smokeSeed, hq, World.record], [insertQuery],
        by simp [smokeSeed, hq, World.record]⟩

theorem smokeTry_leased (b : Boot) (w : World) (c : Unit) (hg : b.getConnection = .ok c) :
    (smokeTry b w).2.1 = some c ∧ (smokeTry b w).2.2.pool = w.lease.pool ∧
      ∃ qs, (smokeTry b w).2.2.log = w.log ++ [Event.acquire] ++ List.map Event.runQuery qs := by
  cases h1 : b.query createTableQuery with
  | error e =>
    refine ⟨?_, ?_, [createTableQuery], ?_⟩ <;>
      simp [smokeTry, hg, h1, World.record, World.lease]
  | ok r1 =>
    cases h2 : b.query countQuery with
    | error e =>
      refine ⟨?_, ?_, [createTableQuery, countQuery], ?_⟩ <;>
        simp [smokeTry, hg, h1, h2, World.record, World.lease]
    | ok countResult =>
      cases h3 : countIsZero countResult with
      | error e =>
        refine ⟨?_, ?_, [createTableQuery, countQuery], ?_⟩ <;>
          simp [smokeTry, hg, h1, h2, h3, World.record, World.lease]
      | ok isZero =>
        obtain ⟨hpool, qs, hlog⟩ := smokeSeed_log b isZero
          (((w.lease).record (Event.runQuery createTableQuery)).record
            (Event.runQuery countQuery))
        rcases hs : smokeSeed b isZero
          (((w.lease).record (Event.runQuery createTableQuery)).record
            (Event.runQuery countQuery)) with ⟨res, w3⟩
        rw [hs] at hpool hlog
        simp only [World.record, World.lease] at hpool hlog
        cases res with
        | error e =>
          refine ⟨?_, ?_, createTableQuery :: countQuery :: qs, ?_⟩
          · simp only [smokeTry, hg, h1, h2, h3, hs]
          · simp only [smokeTry, hg, h1, h2, h3, hs]
            simp only [hpool, World.lease]
          · simp only [smokeTry, hg, h1, h2, h3, hs]
            simp only [hlog]
            simp
        | ok u =>
          cases h4 : b.query testQuery with
          | error e =>
            refine ⟨?_, ?_, createTableQuery :: countQuery :: (qs ++ [testQuery]), ?_⟩
            · simp only [smokeTry, hg, h1, h2, h3, hs, h4]
            · simp only [smokeTry, hg, h1, h2, h3, hs, h4]
              simp only [World.record, hpool, World.lease]
            · simp only [smokeTry, hg, h1, h2, h3, hs, h4]
              simp only [World.record, hlog]
              simp
          | ok r4 =>
            refine ⟨?_, ?_, createTableQuery :: countQuery :: (qs ++ [testQuery]), ?_⟩
            · simp only [smokeTry, hg, h1, h2, h3, hs, h4]
            · simp only [smokeTry, hg, h1, h2, h3, hs, h4]
              simp only [World.record, hpool, World.lease]
            · simp only [smokeTry, hg, h1, h2, h3, hs, h4]
              simp only [World.record, hlog]
              simp

theorem startServer_of_init (b : Boot) (w : World) (u : Unit) (hinit : b.initializePool = .ok u) :
    startServer b w =
      (.listening, finallyRelease (smokeTry b { pool := some { inUse := 0 }, log := w.log }).2.1
        (smokeTry b { pool := some { inUse := 0 }, log := w.log }).2.2) := by
  simp only [startServer, hinit]
  rcases smokeTry b { pool := some { inUse := 0 }, log := w.log } with ⟨r, c, w1⟩
  cases r <;> rfl

/-- C24: whenever `initializePool` succeeds, `startServer` reaches `app.listen` whatever the
smoke test does: every step (lease, table creation, count, seeding, sample read) may return
or throw. No connection stays leased: the calls logged are either none (the lease failed) or
one lease, the statements run, and one release. -/
theorem smoke_test_never_blocks_startup (b : Boot) (w : World)
    (hinit : b.initializePool = .ok ()) :
    (startServer b w).1 = .listening ∧
    (startServer b w).2.pool = some { inUse := 0 } ∧
    ((startServer b w).2.log = w.log ∨
      ∃ qs, (startServer b w).2.log =
        w.log ++ [Event.acquire] ++ List.map Event.runQuery qs ++ [Event.release]) ∧
    (b.getConnection = .ok () →
      ∃ qs, (startServer b w).2.log =
        w.log ++ [Event.acquire] ++ List.map Event.runQuery qs ++ [Event.release]) := by
  rw [startServer_of_init b w () hinit]
  cases hg : b.getConnection with
  | error e =>
    have h : smokeTry b { pool := some { inUse := 0 }, log := w.log } =
        (.error e, none, { pool := some { inUse := 0 }, log := w.log }) := by
      simp [smokeTry, hg]
    rw [h]
    refine ⟨rfl, rfl, Or.inl rfl, ?_⟩
    intro h2; cases h2
  | ok c =>
    obtain ⟨hc, hpool, qs, hlog⟩ :=
      smokeTry_leased b { pool := some { inUse := 0 }, log := w.log } c hg
    have hl : (finallyRelease (smokeTry b { pool := some { inUse := 0 }, log := w.log }).2.1
        (smokeTry b { pool := some { inUse := 0 }, log := w.log }).2.2).log =
        w.log ++ [Event.acquire] ++ List.map Event.runQuery qs ++ [Event.release] := by
      rw [hc]
      simp only [finallyRelease, World.unlease, hlog]
    refine ⟨rfl, ?_, Or.inr ⟨qs, hl⟩, fun _ => ⟨qs, hl⟩⟩
    rw [hc]
    simp [finallyRelease, World.unlease, hpool, World.lease]

theorem smoke_test_never_blocks_startup_witness :
    (startServer (Boot.queriesFail ⟨some "ER_TABLEACCESS_DENIED_ERROR", none⟩) World.noPool).1 =
      .listening ∧
    (startServer (Boot.queriesFail ⟨some "ER_TABLEACCESS_DENIED_ERROR", none⟩) World.noPool).2 =
      { pool := some { inUse := 0 },
        log := [Event.acquire, Event.runQuery createTableQuery, Event.release] } :=
  ⟨(smoke_test_never_blocks_startup
      (Boot.queriesFail ⟨some "ER_TABLEACCESS_DENIED_ERROR", none⟩) World.noPool rfl).1, rfl⟩

/-- C28: a mandatory variable that is defined and empty is listed among the missing variables
of the diagnostic and the process exits with status 1; whenever the startup check lets the
process continue, `SERVER_PORT` is non-empty, so the port is never the default 3001. -/
theorem empty_value_counts_as_missing (env : ProcessEnv) (name : String)
    (hreq : name ∈ requiredEnvVars) (hempty : env name = some "") :
    name ∈ missingEnvVars env ∧
    envCheck env = some ("ERROR: Missing required environment variables: " ++
      ", ".intercalate (missingEnvVars env), 1) ∧
    (∃ exit, moduleTop env = .error exit ∧ exit.2 = 1) ∧
    (∀ env2 : ProcessEnv, moduleTop env2 ≠ .ok Port.default3001) := by
  have hmem : name ∈ missingEnvVars env := (mem_missingEnvVars env name).mpr ⟨hreq, Or.inr hempty⟩
  have hcheck : envCheck env = some ("ERROR: Missing required environment variables: " ++
      ", ".intercalate (missingEnvVars env), 1) := by
    unfold envCheck
    cases hm : missingEnvVars env with
    | nil => rw [hm] at hmem; cases hmem
    | cons a l => simp
  refine ⟨hmem, hcheck,
    ⟨("ERROR: Missing required environment variables: " ++
      ", ".intercalate (missingEnvVars env), 1), by simp [moduleTop, hcheck], rfl⟩, ?_⟩
  intro env2 h
  unfold moduleTop at h
  cases hc : envCheck env2 with
  | some exit => rw [hc] at h; cases h
  | none =>
    rw [hc] at h
    have hnil : missingEnvVars env2 = [] := by
      unfold envCheck at hc
      cases hm : missingEnvVars env2 with
      | nil => rfl
      | cons a l => rw [hm] at hc; simp at hc
    have hport : "SERVER_PORT" ∉ missingEnvVars env2 := by rw [hnil]; simp
    have hne := (not_congr (mem_missingEnvVars env2 "SERVER_PORT")).mp hport
    have hreq2 : "SERVER_PORT" ∈ requiredEnvVars := by decide
    cases hv : env2 "SERVER_PORT" with
    | none => exact hne ⟨hreq2, Or.inl hv⟩
    | some v =>
      by_cases hve : v = ""
      · subst hve; exact hne ⟨hreq2, Or.inr hv⟩
      · simp [serverPort, hv, hve] at h

theorem empty_value_counts_as_missing_witness :
    "DB_PASSWORD" ∈ missingEnvVars emptyPasswordEnv ∧
    (∃ exit, moduleTop emptyPasswordEnv = .error exit ∧ exit.2 = 1) ∧
    moduleTop productionEnv ≠ .ok Port.default3001 := by
  obtain ⟨h1, -, h3, h4⟩ :=
    empty_value_counts_as_missing emptyPasswordEnv "DB_PASSWORD" (by decide) rfl
  exact ⟨h1, h3, h4 productionEnv⟩

/-! ## The client API layer -/

theorem paramsOrNull_truthy (params : JsVal) :
    (paramsOrNull params).truthy = params.truthy := by
  cases params <;> rfl

theorem paramsOrNull_of_truthy (params : JsVal) (h : params.truthy = true) :
    paramsOrNull params = params := by
  cases params <;> first | rfl | (simp [JsVal.truthy] at h)

/-- C29: `queryDB` posts `{query: sql, params}` to `/api/query-safe` when `params` is truthy
(the empty array is) and `{query: sql}` alone to `/api/query` when `params` is falsy (null,
undefined, 0, false, the empty string); `query` is the SQL string unchanged, and the outcome
of `queryDB` only depends on what `fetch` yields for that one request. -/
theorem queryDB_endpoint_by_truthiness (sql : String) (params : JsVal) :
    (params.truthy = true →
      clientRequest sql params =
        { url := "http://localhost:8888/api/query-safe", query := .str sql, params := params }) ∧
    (params.truthy = false →
      clientRequest sql params =
        { url := "http://localhost:8888/api/query", query := .str sql, params := .undefined }) ∧
    (JsVal.arr []).truthy = true ∧ JsVal.null.truthy = false ∧ JsVal.undefined.truthy = false ∧
    (∀ fetch fetch2 : ClientRequest → FetchOutcome,
      fetch (clientRequest sql params) = fetch2 (clientRequest sql params) →
      queryDB fetch sql params = queryDB fetch2 sql params) := by
  refine ⟨?_, ?_, rfl, rfl, rfl, ?_⟩
  · intro h
    have hu : SERVER_URL ++ "/api/query-safe" = "http://localhost:8888/api/query-safe" := by
      decide
    simp [clientRequest, paramsOrNull_truthy, h, paramsOrNull_of_truthy params h, hu]
  · intro h
    have hu : SERVER_URL ++ "/api/query" = "http://localhost:8888/api/query" := by decide
    simp [clientRequest, paramsOrNull_truthy, h, hu]
  · intro fetch fetch2 h
    simp [queryDB, queryDBTry, h]

theorem queryDB_endpoint_by_truthiness_witness :
    clientRequest "SELECT * FROM Airlines" (.arr []) =
      { url := "http://localhost:8888/api/query-safe", query := .str "SELECT * FROM Airlines",
        params := .arr [] } ∧
    clientRequest "SELECT * FROM Airlines" .null =
      { url := "http://localhost:8888/api/query", query := .str "SELECT * FROM Airlines",
        params := .undefined } :=
  ⟨(queryDB_endpoint_by_truthiness "SELECT * FROM Airlines" (.arr [])).1 rfl,
    (queryDB_endpoint_by_truthiness "SELECT * FROM Airlines" .null).2.1 rfl⟩

theorem queryDB_of_json (fetch : ClientRequest → FetchOutcome) (sql : String) (params : JsVal)
    (body : Response) (h : fetch (clientRequest sql params) = .json body) :
    queryDB fetch sql params =
      .ok (if body.success then .body body
        else .failure (some (orDefault body.message (orDefault body.error "Query failed")))) := by
  cases hs : body.success <;> simp [queryDB, queryDBTry, h, hs]

theorem queryDB_total (fetch : ClientRequest → FetchOutcome) (sql : String) (params : JsVal) :
    ∃ r, queryDB fetch sql params = .ok r := by
  unfold queryDB
  cases queryDBTry fetch sql params with
  | ok d => exact ⟨d, rfl⟩
  | error e => exact ⟨.failure e.message, rfl⟩

theorem mutationQuery_total (fetch : ClientRequest → FetchOutcome) (sql : String)
    (params : JsVal) : ∃ v, mutationQuery fetch sql params = .ok v := by
  obtain ⟨r, hr⟩ := queryDB_total fetch sql params
  exact ⟨if r.success then r.rowCount else some 0, by simp [mutationQuery, hr]⟩

theorem selectQuery_total (fetch : ClientRequest → FetchOutcome) (sql : String)
    (params : JsVal) : ∃ v, selectQuery fetch sql params = .ok v := by
  obtain ⟨r, hr⟩ := queryDB_total fetch sql params
  exact ⟨if r.success then r.data else some (.rows []), by simp [selectQuery, hr]⟩

theorem queryDB_of_failure (fetch : ClientRequest → FetchOutcome) (sql : String) (params : JsVal)
    (hfail : (∃ e, fetch (clientRequest sql params) = .networkError e) ∨
      (∃ e, fetch (clientRequest sql params) = .notJson e) ∨
      (∃ body, fetch (clientRequest sql params) = .json body ∧ body.success = false)) :
    ∃ msg, queryDB fetch sql params = .ok (.failure msg) := by
  rcases hfail with ⟨e, h⟩ | ⟨e, h⟩ | ⟨body, h, hs⟩
  · exact ⟨e.message, by simp [queryDB, queryDBTry, h]⟩
  · exact ⟨e.message, by simp [queryDB, queryDBTry, h]⟩
  · exact ⟨some (orDefault body.message (orDefault body.error "Query failed")),
      by rw [queryDB_of_json fetch sql params body h]; simp [hs]⟩

/-- C26: `queryDB`, `selectQuery` and `mutationQuery` always resolve. When `fetch` throws,
the response is not JSON or the body has `success` false, `queryDB` resolves to
`{success: false, error, data: null}`, `selectQuery` to the empty list and `mutationQuery`
to 0; the passenger form's submit handler therefore never enters its `catch` block and
shows the success toast. -/
theorem client_queries_never_reject (fetch : ClientRequest → FetchOutcome) (sql : String)
    (params : JsVal) (firstName lastName passport : String) :
    (∃ r, queryDB fetch sql params = .ok r) ∧
    (∃ v, selectQuery fetch sql params = .ok v) ∧
    (∃ v, mutationQuery fetch sql params = .ok v) ∧
    (((∃ e, fetch (clientRequest sql params) = .networkError e) ∨
        (∃ e, fetch (clientRequest sql params) = .notJson e) ∨
        (∃ body, fetch (clientRequest sql params) = .json body ∧ body.success = false)) →
      (∃ msg, queryDB fetch sql params = .ok (.failure msg) ∧
        (ClientResult.failure msg).success = false ∧ (ClientResult.failure msg).data = none) ∧
      selectQuery fetch sql params = .ok (some (.rows [])) ∧
      mutationQuery fetch sql params = .ok (some 0)) ∧
    submitPassenger fetch firstName lastName passport =
      .ok (.success "✈️ Passenger added successfully!") := by
  refine ⟨queryDB_total fetch sql params, selectQuery_total fetch sql params,
    mutationQuery_total fetch sql params, ?_, ?_⟩
  · intro hfail
    obtain ⟨msg, hq⟩ := queryDB_of_failure fetch sql params hfail
    exact ⟨⟨msg, hq, rfl, rfl⟩, by simp [selectQuery, hq, ClientResult.success],
      by simp [mutationQuery, hq, ClientResult.success]⟩
  · obtain ⟨v, hv⟩ := mutationQuery_total fetch addPassengerSql
      (.arr [.str firstName, .str lastName, .str passport])
    simp [submitPassenger, addPassenger, hv]

theorem client_queries_never_reject_witness :
    selectQuery (fetchAlways (.networkError ⟨some "Failed to fetch"⟩)) "SELECT * FROM Flights"
        .null = .ok (some (.rows [])) ∧
    mutationQuery (fetchAlways (.networkError ⟨some "Failed to fetch"⟩)) "DELETE FROM Flights"
        .null = .ok (some 0) ∧
    submitPassenger (fetchAlways (.notJson ⟨some "Unexpected token <"⟩)) "Ada" "Lovelace"
        "P1234567" = .ok (.success "✈️ Passenger added successfully!") := by
  obtain ⟨-, -, -, h4, -⟩ := client_queries_never_reject
    (fetchAlways (.networkError ⟨some "Failed to fetch"⟩)) "SELECT * FROM Flights" .null
    "Ada" "Lovelace" "P1234567"
  obtain ⟨-, -, -, k4, -⟩ := client_queries_never_reject
    (fetchAlways (.networkError ⟨some "Failed to fetch"⟩)) "DELETE FROM Flights" .null
    "Ada" "Lovelace" "P1234567"
  obtain ⟨-, -, -, -, m5⟩ := client_queries_never_reject
    (fetchAlways (.notJson ⟨some "Unexpected token <"⟩)) "SELECT 1" .null
    "Ada" "Lovelace" "P1234567"
  exact ⟨(h4 (Or.inl ⟨_, rfl⟩)).2.1, (k4 (Or.inl ⟨_, rfl⟩)).2.2, m5⟩

/-- C25 (the claim as stated fails): `selectQuery` resolves to the empty list when `fetch`
fails, when the service answers with a structured error, and when the SELECT succeeds with
zero rows; `mutationQuery` resolves to 0 in the two failure cases and for a successful
statement that affects no row. -/
theorem select_failure_looks_like_no_rows :
    selectQuery (fetchAlways (.networkError ⟨some "Failed to fetch"⟩)) "SELECT * FROM Flights"
        .null = .ok (some (.rows [])) ∧
    selectQuery (fetchAlways (.json (queryCatch sampleEnv 7 ⟨some "ER_NO_SUCH_TABLE", none⟩)))
        "SELECT * FROM Flights" .null = .ok (some (.rows [])) ∧
    selectQuery (fetchAlways (.json (successResponse 7 (.rows [])))) "SELECT * FROM Flights"
        .null = .ok (some (.rows [])) ∧
    mutationQuery (fetchAlways (.networkError ⟨some "Failed to fetch"⟩)) "DELETE FROM Flights"
        .null = .ok (some 0) ∧
    mutationQuery (fetchAlways (.json (queryCatch sampleEnv 7 ⟨some "ER_NO_SUCH_TABLE", none⟩)))
        "DELETE FROM Flights" .null = .ok (some 0) ∧
    mutationQuery (fetchAlways (.json (successResponse 7 (.header (some 0)))))
        "DELETE FROM Flights" .null = .ok (some 0) :=
  ⟨rfl, rfl, rfl, rfl, rfl, rfl⟩

/-- C25 (amended): the value of `queryDB` separates a successful response (the body, with
`success` true) from a failure (`success` false, `data` null); for a failure it carries as
`error` the message of the thrown error, or the `message`, else the `error`, else
'Query failed' of a structured error body, and nothing else tells 'cannot reach service'
from 'service reached but query failed'. `selectQuery` resolves to the empty list and
`mutationQuery` to 0 for every failure. -/
theorem client_outcomes (fetch : ClientRequest → FetchOutcome) (sql : String) (params : JsVal) :
    (∀ body, fetch (clientRequest sql params) = .json body → body.success = true →
      queryDB fetch sql params = .ok (.body body) ∧
      selectQuery fetch sql params = .ok body.data ∧
      mutationQuery fetch sql params = .ok body.rowCount) ∧
    (∀ e, (fetch (clientRequest sql params) = .networkError e ∨
        fetch (clientRequest sql params) = .notJson e) →
      queryDB fetch sql params = .ok (.failure e.message)) ∧
    (∀ body, fetch (clientRequest sql params) = .json body → body.success = false →
      queryDB fetch sql params =
        .ok (.failure (some (orDefault body.message (orDefault body.error "Query failed"))))) ∧
    (∀ msg, queryDB fetch sql params = .ok (.failure msg) →
      selectQuery fetch sql params = .ok (some (.rows [])) ∧
      mutationQuery fetch sql params = .ok (some 0)) := by
  refine ⟨?_, ?_, ?_, ?_⟩
  · intro body h hs
    have hq : queryDB fetch sql params = .ok (.body body) := by
      rw [queryDB_of_json fetch sql params body h]; simp [hs]
    exact ⟨hq, by simp [selectQuery, hq, ClientResult.success, ClientResult.data, hs],
      by simp [mutationQuery, hq, ClientResult.success, ClientResult.rowCount, hs]⟩
  · intro e h
    rcases h with h | h <;> simp [queryDB, queryDBTry, h]
  · intro body h hs
    rw [queryDB_of_json fetch sql params body h]; simp [hs]
  · intro msg hq
    exact ⟨by simp [selectQuery, hq, ClientResult.success],
      by simp [mutationQuery, hq, ClientResult.success]⟩

theorem client_outcomes_witness :
    queryDB (fetchAlways (.networkError ⟨some "Failed to fetch"⟩)) "SELECT 1" .null =
      .ok (.failure (some "Failed to fetch")) ∧
    queryDB (fetchAlways (.json (poolMissing 7))) "SELECT 1" .null =
      .ok (.failure (some "Database connection pool not initialized")) ∧
    selectQuery (fetchAlways (.json (successResponse 7 (.rows [.num 1])))) "SELECT 1" .null =
      .ok (some (.rows [.num 1])) := by
  obtain ⟨-, h2, -, -⟩ :=
    client_outcomes (fetchAlways (.networkError ⟨some "Failed to fetch"⟩)) "SELECT 1" .null
  obtain ⟨-, -, h3, -⟩ := client_outcomes (fetchAlways (.json (poolMissing 7))) "SELECT 1" .null
  obtain ⟨h1, -, -, -⟩ :=
    client_outcomes (fetchAlways (.json (successResponse 7 (.rows [.num 1])))) "SELECT 1" .null
  exact ⟨h2 _ (Or.inl rfl), h3 _ rfl rfl, (h1 _ rfl rfl).2.1⟩

/-! ## The booking form -/

theorem ticketLoop_sent (fetch : ClientRequest → FetchOutcome) (expLead : Nat → Nat)
    (bookingId : Nat) (flightId : Int) (passengers : List (Int × JsVal)) :
    ∀ sent, ticketLoop fetch expLead bookingId flightId passengers sent =
      (.ok (), sent ++ passengers.map (fun p =>
        clientRequest addTicketSql
          (ticketParams (jsParseInt expLead bookingId) p.1 flightId p.2))) := by
  induction passengers with
  | nil => intro sent; simp [ticketLoop]
  | cons p rest ih =>
    intro sent
    obtain ⟨passengerId, price⟩ := p
    obtain ⟨v, hv⟩ := mutationQuery_total fetch addTicketSql
      (ticketParams (jsParseInt expLead bookingId) passengerId flightId price)
    simp only [ticketLoop, addTicketSent, mutationQuerySent, hv, ih, List.map_cons,
      List.append_assoc, List.singleton_append]

theorem addBookingSent_result (fetch : ClientRequest → FetchOutcome) (bookingRef : String)
    (sent : List ClientRequest) :
    addBookingSent fetch bookingRef sent =
      (addBooking fetch bookingRef,
        sent ++ [clientRequest addBookingSql (.arr [.str bookingRef])]) :=
  rfl

theorem addTicketSent_result (fetch : ClientRequest → FetchOutcome)
    (bookingId passengerId flightId : Int) (price : JsVal) (sent : List ClientRequest) :
    addTicketSent fetch bookingId passengerId flightId price sent =
      (addTicket fetch bookingId passengerId flightId price,
        sent ++ [clientRequest addTicketSql
          (.arr [.num bookingId, .num passengerId, .num flightId, .null, price])]) :=
  rfl

theorem jsParseInt_small (expLead : Nat → Nat) (n : Nat) (h : n < 1000000000000000000000) :
    jsParseInt expLead n = Int.ofNat n := by
  simp only [jsParseInt, h, if_true]

theorem bookingTry_of_count (fetch : ClientRequest → FetchOutcome) (expLead : Nat → Nat)
    (bookingRef : String) (flightId : Int) (passengers : List (Int × JsVal))
    (sent : List ClientRequest) (n : Nat)
    (h : addBooking fetch bookingRef = .ok (some n)) (hn : n ≠ 0) :
    bookingTry fetch expLead bookingRef flightId passengers sent =
      (.ok (), sent ++ clientRequest addBookingSql (.arr [.str bookingRef]) ::
        passengers.map (fun p =>
          clientRequest addTicketSql
            (ticketParams (jsParseInt expLead n) p.1 flightId p.2))) := by
  have h2 : mutationQuery fetch addBookingSql (.arr [.str bookingRef]) = .ok (some n) := h
  simp only [bookingTry, addBookingSent, mutationQuerySent, h2, bookingIdOf, hn, if_false,
    ticketLoop_sent, List.append_assoc, List.singleton_append]

/-- C27: the booking id sent with every ticket is the value `addBooking` resolves to, which
is the `rowCount` of the server's response (0 for a failed query) and not an identifier of
the inserted booking. For a count `n` that is not 0 the handler sends the booking insert and
then one ticket insert per passenger, each with `parseInt(n)` as first parameter, which is
`n` for every count below 1e21; for the count 1 of a single-row insert every ticket carries
booking id 1 whatever the booking reference is. When `addBooking` resolves to 0 the handler
throws 'Failed to get booking ID from database' and sends no ticket insert. -/
theorem booking_id_is_row_count (fetch : ClientRequest → FetchOutcome) (expLead : Nat → Nat)
    (bookingRef : String) (flightId : Int) (passengers : List (Int × JsVal))
    (sent : List ClientRequest) :
    (∀ body, fetch (clientRequest addBookingSql (.arr [.str bookingRef])) = .json body →
      body.success = true → addBooking fetch bookingRef = .ok body.rowCount) ∧
    (∀ n, addBooking fetch bookingRef = .ok (some n) → n ≠ 0 → n < 1000000000000000000000 →
      bookingTry fetch expLead bookingRef flightId passengers sent =
        (.ok (), sent ++ clientRequest addBookingSql (.arr [.str bookingRef]) ::
          passengers.map (fun p =>
            clientRequest addTicketSql
              (.arr [.num (Int.ofNat n), .num p.1, .num flightId, .null, p.2])))) ∧
    (addBooking fetch bookingRef = .ok (some 1) →
      bookingTry fetch expLead bookingRef flightId passengers sent =
        (.ok (), sent ++ clientRequest addBookingSql (.arr [.str bookingRef]) ::
          passengers.map (fun p =>
            clientRequest addTicketSql (.arr [.num 1, .num p.1, .num flightId, .null, p.2])))) ∧
    (addBooking fetch bookingRef = .ok (some 0) →
      bookingTry fetch expLead bookingRef flightId passengers sent =
        (.error ⟨some "Failed to get booking ID from database"⟩,
          sent ++ [clientRequest addBookingSql (.arr [.str bookingRef])])) ∧
    (∀ n, addBooking fetch bookingRef = .ok (some n) → 1000000000000000000000 ≤ n →
      bookingTry fetch expLead bookingRef flightId passengers sent =
        (.ok (), sent ++ clientRequest addBookingSql (.arr [.str bookingRef]) ::
          passengers.map (fun p =>
            clientRequest addTicketSql
              (.arr [.num (Int.ofNat (expLead n)), .num p.1, .num flightId, .null, p.2])))) := by
  refine ⟨?_, ?_, ?_, ?_, ?_⟩
  · intro body h hs
    have hq := queryDB_of_json fetch addBookingSql (.arr [.str bookingRef]) body h
    simp only [hs, if_true] at hq
    simp [addBooking, mutationQuery, hq, ClientResult.success, ClientResult.rowCount, hs]
  · intro n h hn hlt
    rw [bookingTry_of_count fetch expLead bookingRef flightId passengers sent n h hn,
      jsParseInt_small expLead n hlt]
    rfl
  · intro h
    rw [bookingTry_of_count fetch expLead bookingRef flightId passengers sent 1 h (by decide),
      jsParseInt_small expLead 1 (by decide)]
    rfl
  · intro h
    have h2 : mutationQuery fetch addBookingSql (.arr [.str bookingRef]) = .ok (some 0) := h
    simp only [bookingTry, addBookingSent, mutationQuerySent, h2, bookingIdOf, if_true]
  · intro n h hge
    have hn : n ≠ 0 := by omega
    have hp : jsParseInt expLead n = Int.ofNat (expLead n) := by
      have hlt : ¬ n < 1000000000000000000000 := by omega
      simp only [jsParseInt, hlt, if_false]
    rw [bookingTry_of_count fetch expLead bookingRef flightId passengers sent n h hn, hp]
    rfl

theorem booking_id_is_row_count_witness :
    bookingTry (fetchAlways (.json (successResponse 7 (.header (some 1))))) (fun _ => 1)
        "BK2025110400001" 42 [(12, .num 100), (13, .num 120)] [] =
      (.ok (),
        [clientRequest addBookingSql (.arr [.str "BK2025110400001"]),
         clientRequest addTicketSql (.arr [.num 1, .num 12, .num 42, .null, .num 100]),
         clientRequest addTicketSql (.arr [.num 1, .num 13, .num 42, .null, .num 120])]) ∧
    bookingTry (fetchAlways (.json (successResponse 7 (.header (some 1))))) (fun _ => 1)
        "BK2025110400002" 42 [(14, .num 90)] [] =
      (.ok (),
        [clientRequest addBookingSql (.arr [.str "BK2025110400002"]),
         clientRequest addTicketSql (.arr [.num 1, .num 14, .num 42, .null, .num 90])]) ∧
    bookingTry (fetchAlways (.networkError ⟨some "Failed to fetch"⟩)) (fun _ => 1)
        "BK2025110400003" 42 [(14, .num 90)] [] =
      (.error ⟨some "Failed to get booking ID from database"⟩,
        [clientRequest addBookingSql (.arr [.str "BK2025110400003"])]) :=
  ⟨(booking_id_is_row_count (fetchAlways (.json (successResponse 7 (.header (some 1)))))
      (fun _ => 1) "BK2025110400001" 42 [(12, .num 100), (13, .num 120)] []).2.2.1 rfl,
    (booking_id_is_row_count (fetchAlways (.json (successResponse 7 (.header (some 1)))))
      (fun _ => 1) "BK2025110400002" 42 [(14, .num 90)] []).2.2.1 rfl,
    (booking_id_is_row_count (fetchAlways (.networkError ⟨some "Failed to fetch"⟩))
      (fun _ => 1) "BK2025110400003" 42 [(14, .num 90)] []).2.2.2.1 rfl⟩

/-! ## Passenger names: the sanitiser against the validator -/

theorem hasAdjacent_cons (p : Char → Bool) (a : Char) (l : List Char) :
    hasAdjacent p (a :: l) = ((p a && startsWith p l) || hasAdjacent p l) := by
  cases l with
  | nil => simp [hasAdjacent, startsWith]
  | cons b rest => simp [hasAdjacent, startsWith]

theorem hasAdjacent_false_iff_chain (p : Char → Bool) (l : List Char) :
    hasAdjacent p l = false ↔ List.Chain' (fun a b => ¬ (p a = true ∧ p b = true)) l := by
  induction l with
  | nil => simp [hasAdjacent]
  | cons a l ih =>
    cases l with
    | nil => simp [hasAdjacent]
    | cons b rest =>
      rw [List.chain'_cons, ← ih]
      simp only [hasAdjacent, Bool.or_eq_false_iff, Bool.and_eq_false_iff]
      constructor
      · rintro ⟨h1, h2⟩
        refine ⟨?_, h2⟩
        rintro ⟨ha, hb⟩
        rcases h1 with h1 | h1 <;> simp_all
      · rintro ⟨h1, h2⟩
        refine ⟨?_, h2⟩
        by_cases ha : p a = true
        · right
          by_cases hb : p b = true
          · exact absurd ⟨ha, hb⟩ h1
          · simpa using hb
        · left
          simpa using ha

theorem hasAdjacent_within (p : Char → Bool) (l₁ l : List Char) (h : hasAdjacent p l = false)
    (hin : l₁ <:+: l) : hasAdjacent p l₁ = false :=
  (hasAdjacent_false_iff_chain p l₁).mpr <|
    List.Chain'.infix ((hasAdjacent_false_iff_chain p l).mp h) hin

theorem trim_within (cs : List Char) : trimEnd (trimStart cs) <:+: cs := by
  have h1 : trimStart cs <:+ cs := List.dropWhile_suffix _
  have h2 : trimEnd (trimStart cs) <+: trimStart cs := by
    unfold trimEnd
    have h3 : (trimStart cs).reverse.dropWhile isJsWhiteSpace <:+ (trimStart cs).reverse :=
      List.dropWhile_suffix _
    have h4 := List.reverse_prefix.mpr h3
    rwa [List.reverse_reverse] at h4
  exact h2.isInfix.trans h1.isInfix

theorem isNameSpecial_not_space (c : Char) (h : isNameSpecial c = true) :
    isJsWhiteSpace c = false := by
  simp only [isNameSpecial, Bool.or_eq_true, beq_iff_eq] at h
  rcases h with h | h <;> subst h <;> decide

theorem utf16Units_of_nameChar (c : Char) (h : isNameChar c = true) : utf16Units c = 1 := by
  have hlt : c.toNat < 0x10000 := by
    simp only [isNameChar, Bool.or_eq_true] at h
    rcases h with (h | h) | h
    · simp only [isAsciiLetter, Bool.or_eq_true, Bool.and_eq_true, decide_eq_true_eq] at h
      omega
    · simp only [isJsWhiteSpace, Bool.or_eq_true, Bool.and_eq_true, decide_eq_true_eq,
        beq_iff_eq] at h
      omega
    · simp only [isNameSpecial, Bool.or_eq_true, beq_iff_eq] at h
      rcases h with h | h <;> subst h <;> decide
  simp [utf16Units, hlt]

theorem jsLength_of_nameChars (l : List Char) (h : ∀ c ∈ l, isNameChar c = true) :
    jsLength ⟨l⟩ = l.length := by
  induction l with
  | nil => rfl
  | cons a l ih =>
    have ha := utf16Units_of_nameChar a (h a (List.mem_cons_self a l))
    have hl := ih (fun c hc => h c (List.mem_cons_of_mem a hc))
    simp only [jsLength, List.map_cons, List.sum_cons, List.length_cons] at hl ⊢
    omega

theorem collapseSpaces_spec (l : List Char) :
    ∀ b, hasAdjacent isJsWhiteSpace (collapseSpaces b l) = false ∧
      (b = true → startsWith isJsWhiteSpace (collapseSpaces b l) = false) ∧
      (startsWith isJsWhiteSpace l = false →
        startsWith isJsWhiteSpace (collapseSpaces b l) = false) := by
  induction l with
  | nil => intro b; simp [collapseSpaces, hasAdjacent, startsWith]
  | cons c cs ih =>
    intro b
    by_cases hc : isJsWhiteSpace c = true
    · cases b with
      | true =>
        have h := ih true
        simp only [collapseSpaces, hc, if_true]
        exact ⟨h.1, fun _ => h.2.1 rfl, fun h0 => (by simp [startsWith, hc] at h0)⟩
      | false =>
        cases cs with
        | nil => simp [collapseSpaces, hc, hasAdjacent, startsWith]
        | cons d rest =>
          by_cases hd : isJsWhiteSpace d = true
          · have h := ih true
            have hcol : collapseSpaces false (c :: d :: rest) =
                ' ' :: collapseSpaces true (d :: rest) := by
              simp [collapseSpaces, hc, hd]
            rw [hcol]
            refine ⟨?_, fun h0 => (by cases h0), fun h0 => (by simp [startsWith, hc] at h0)⟩
            rw [hasAdjacent_cons]
            simp [h.1, h.2.1 rfl]
          · have hd2 : isJsWhiteSpace d = false := by simpa using hd
            have h := ih false
            have hs : startsWith isJsWhiteSpace (d :: rest) = false := by
              simp [startsWith, hd2]
            have hcol : collapseSpaces false (c :: d :: rest) =
                c :: collapseSpaces false (d :: rest) := by
              simp [collapseSpaces, hc, hd2]
            rw [hcol]
            refine ⟨?_, fun h0 => (by cases h0), fun h0 => (by simp [startsWith, hc] at h0)⟩
            rw [hasAdjacent_cons]
            simp [h.1, h.2.2 hs]
    · have hc2 : isJsWhiteSpace c = false := by simpa using hc
      have h := ih false
      have hcol : collapseSpaces b (c :: cs) = c :: collapseSpaces false cs := by
        simp [collapseSpaces, hc2]
      rw [hcol]
      refine ⟨?_, fun _ => (by simp [startsWith, hc2]), fun _ => (by simp [startsWith, hc2])⟩
      rw [hasAdjacent_cons]
      simp [hc2, h.1]

theorem collapseSpaces_mem (l : List Char) :
    ∀ b c, c ∈ collapseSpaces b l → c ∈ l ∨ c = ' ' := by
  induction l with
  | nil => intro b c h; simp [collapseSpaces] at h
  | cons a cs ih =>
    intro b c h
    by_cases ha : isJsWhiteSpace a = true
    · cases b with
      | true =>
        simp only [collapseSpaces, ha, if_true] at h
        rcases ih true c h with h1 | h1
        · exact Or.inl (List.mem_cons_of_mem a h1)
        · exact Or.inr h1
      | false =>
        cases cs with
        | nil =>
          simp only [collapseSpaces, ha, if_true, Bool.false_eq_true, if_false] at h
          exact Or.inl h
        | cons d rest =>
          by_cases hd : isJsWhiteSpace d = true
          · simp only [collapseSpaces, ha, hd, if_true, Bool.false_eq_true, if_false,
              List.mem_cons] at h
            rcases h with h | h
            · exact Or.inr h
            · have h2 : c ∈ collapseSpaces true (d :: rest) := by
                simpa [collapseSpaces, hd] using h
              rcases ih true c h2 with h1 | h1
              · exact Or.inl (List.mem_cons_of_mem a h1)
              · exact Or.inr h1
          · have hd2 : isJsWhiteSpace d = false := by simpa using hd
            have hcol : collapseSpaces false (a :: d :: rest) =
                a :: collapseSpaces false (d :: rest) := by
              simp [collapseSpaces, ha, hd2]
            rw [hcol, List.mem_cons] at h
            rcases h with h | h
            · exact Or.inl (by rw [h]; exact List.mem_cons_self a _)
            · rcases ih false c h with h1 | h1
              · exact Or.inl (List.mem_cons_of_mem a h1)
              · exact Or.inr h1
    · have ha2 : isJsWhiteSpace a = false := by simpa using ha
      have hcol : collapseSpaces b (a :: cs) = a :: collapseSpaces false cs := by
        simp [collapseSpaces, ha2]
      rw [hcol, List.mem_cons] at h
      rcases h with h | h
      · exact Or.inl (by rw [h]; exact List.mem_cons_self a _)
      · rcases ih false c h with h1 | h1
        · exact Or.inl (List.mem_cons_of_mem a h1)
        · exact Or.inr h1

theorem collapseSpecials_spec (l : List Char) :
    ∀ b, hasAdjacent isNameSpecial (collapseSpecials b l) = false ∧
      (b = true → startsWith isNameSpecial (collapseSpecials b l) = false) := by
  induction l with
  | nil => intro b; simp [collapseSpecials, hasAdjacent, startsWith]
  | cons c cs ih =>
    intro b
    by_cases hc : isNameSpecial c = true
    · cases b with
      | true =>
        have h := ih true
        simp only [collapseSpecials, hc, if_true]
        exact ⟨h.1, fun _ => h.2 rfl⟩
      | false =>
        have h := ih true
        simp only [collapseSpecials, hc, if_true, Bool.false_eq_true, if_false]
        refine ⟨?_, fun h0 => (by cases h0)⟩
        rw [hasAdjacent_cons]
        simp [h.1, h.2 rfl]
    · have hc2 : isNameSpecial c = false := by simpa using hc
      have h := ih false
      simp only [collapseSpecials, hc2, Bool.false_eq_true, if_false]
      refine ⟨?_, fun _ => (by simp [startsWith, hc2])⟩
      rw [hasAdjacent_cons]
      simp [hc2, h.1]

theorem collapseSpecials_mem (l : List Char) :
    ∀ b c, c ∈ collapseSpecials b l → c ∈ l := by
  induction l with
  | nil => intro b c h; simp [collapseSpecials] at h
  | cons a cs ih =>
    intro b c h
    by_cases ha : isNameSpecial a = true
    · cases b with
      | true =>
        simp only [collapseSpecials, ha, if_true] at h
        exact List.mem_cons_of_mem a (ih true c h)
      | false =>
        simp only [collapseSpecials, ha, if_true, Bool.false_eq_true, if_false,
          List.mem_cons] at h
        rcases h with h | h
        · rw [h]; exact List.mem_cons_self a _
        · exact List.mem_cons_of_mem a (ih true c h)
    · have ha2 : isNameSpecial a = false := by simpa using ha
      simp only [collapseSpecials, ha2, Bool.false_eq_true, if_false, List.mem_cons] at h
      rcases h with h | h
      · rw [h]; exact List.mem_cons_self a _
      · exact List.mem_cons_of_mem a (ih false c h)

theorem collapseSpecials_startsWith_space (l : List Char)
    (h : startsWith isJsWhiteSpace (collapseSpecials false l) = true) :
    startsWith isJsWhiteSpace l = true := by
  cases l with
  | nil => simp [collapseSpecials, startsWith] at h
  | cons c cs =>
    by_cases hc : isNameSpecial c = true
    · simp only [collapseSpecials, hc, if_true, Bool.false_eq_true, if_false, startsWith] at h
      simpa [startsWith] using h
    · have hc2 : isNameSpecial c = false := by simpa using hc
      simp only [collapseSpecials, hc2, Bool.false_eq_true, if_false, startsWith] at h
      simpa [startsWith] using h

theorem collapseSpecials_keeps_spaces_apart (l : List Char) :
    ∀ b, hasAdjacent isJsWhiteSpace l = false →
      hasAdjacent isJsWhiteSpace (collapseSpecials b l) = false := by
  induction l with
  | nil => intro b _; simp [collapseSpecials, hasAdjacent]
  | cons c cs ih =>
    intro b h
    rw [hasAdjacent_cons] at h
    simp only [Bool.or_eq_false_iff, Bool.and_eq_false_iff] at h
    obtain ⟨hpair, htail⟩ := h
    by_cases hc : isNameSpecial c = true
    · have hws := isNameSpecial_not_space c hc
      cases b with
      | true =>
        simp only [collapseSpecials, hc, if_true]
        exact ih true htail
      | false =>
        simp only [collapseSpecials, hc, if_true, Bool.false_eq_true, if_false]
        rw [hasAdjacent_cons]
        simp [hws, ih true htail]
    · have hc2 : isNameSpecial c = false := by simpa using hc
      simp only [collapseSpecials, hc2, Bool.false_eq_true, if_false]
      rw [hasAdjacent_cons]
      simp only [Bool.or_eq_false_iff, Bool.and_eq_false_iff]
      refine ⟨?_, ih false htail⟩
      rcases hpair with hp | hp
      · exact Or.inl hp
      · right
        cases hst : startsWith isJsWhiteSpace (collapseSpecials false cs) with
        | false => rfl
        | true =>
          have := collapseSpecials_startsWith_space cs hst
          rw [this] at hp
          cases hp

theorem sanitizeName_props (value : String) :
    (∀ c ∈ (sanitizeName value).data, isNameChar c = true) ∧
    hasAdjacent isJsWhiteSpace (sanitizeName value).data = false ∧
    hasAdjacent isNameSpecial (sanitizeName value).data = false ∧
    (sanitizeName value).data.length ≤ 50 := by
  have hchars : ∀ c ∈ collapseSpecials false (collapseSpaces false
      (value.data.filter isNameChar)), isNameChar c = true := by
    intro c hc
    rcases collapseSpaces_mem _ false c (collapseSpecials_mem _ false c hc) with h | h
    · exact (List.mem_filter.mp h).2
    · rw [h]; decide
  have hws : hasAdjacent isJsWhiteSpace (collapseSpecials false (collapseSpaces false
      (value.data.filter isNameChar))) = false :=
    collapseSpecials_keeps_spaces_apart _ false (collapseSpaces_spec _ false).1
  have hsp : hasAdjacent isNameSpecial (collapseSpecials false (collapseSpaces false
      (value.data.filter isNameChar))) = false :=
    (collapseSpecials_spec _ false).1
  have hlen := jsLength_of_nameChars _ hchars
  by_cases hlong : jsLength ⟨collapseSpecials false (collapseSpaces false
      (value.data.filter isNameChar))⟩ > 50
  · have hs : sanitizeName value = ⟨(collapseSpecials false (collapseSpaces false
        (value.data.filter isNameChar))).take 50⟩ := by
      simp only [sanitizeName, hlong, if_true]
    rw [hs]
    have hpre := List.IsPrefix.isInfix <| List.take_prefix 50 (collapseSpecials false
      (collapseSpaces false (value.data.filter isNameChar)))
    exact ⟨fun c hc => hchars c (hpre.subset hc), hasAdjacent_within _ _ _ hws hpre,
      hasAdjacent_within _ _ _ hsp hpre, List.length_take_le 50 _⟩
  · have hs : sanitizeName value = ⟨collapseSpecials false (collapseSpaces false
        (value.data.filter isNameChar))⟩ := by
      simp only [sanitizeName, hlong, if_false]
    rw [hs]
    refine ⟨hchars, hws, hsp, ?_⟩
    simp only
    omega

/-- C30: for every input string, the value that `handleFirstNameChange` and
`handleLastNameChange` store passes `validateName` (the result is `null`) whenever its
trimmed length is at least 2. -/
theorem sanitized_name_is_valid (value fieldName : String)
    (h : 2 ≤ jsLength (jsTrim (sanitizeName value))) :
    validateName (sanitizeName value) fieldName = none := by
  obtain ⟨hchars, hws, hsp, hlen⟩ := sanitizeName_props value
  have hin := trim_within (sanitizeName value).data
  have tchars : ∀ c ∈ trimEnd (trimStart (sanitizeName value).data), isNameChar c = true :=
    fun c hc => hchars c (hin.subset hc)
  have tws := hasAdjacent_within _ _ _ hws hin
  have tsp := hasAdjacent_within _ _ _ hsp hin
  have tlen : (trimEnd (trimStart (sanitizeName value).data)).length ≤ 50 :=
    Nat.le_trans hin.length_le hlen
  have hjs : jsLength (jsTrim (sanitizeName value)) =
      (trimEnd (trimStart (sanitizeName value).data)).length :=
    jsLength_of_nameChars _ tchars
  have hne : jsTrim (sanitizeName value) ≠ "" := by
    intro h0
    rw [h0] at h
    revert h
    decide
  have hnonempty : (jsTrim (sanitizeName value)).data.isEmpty = false := by
    cases hd : (jsTrim (sanitizeName value)).data with
    | nil =>
      have : jsTrim (sanitizeName value) = "" := String.ext hd
      exact absurd this hne
    | cons a l => rfl
  have hall : (jsTrim (sanitizeName value)).data.all isNameChar = true :=
    List.all_eq_true.mpr tchars
  have h2 : ¬ jsLength (jsTrim (sanitizeName value)) < 2 := by omega
  have h50 : ¬ jsLength (jsTrim (sanitizeName value)) > 50 := by omega
  have tws2 : hasAdjacent isJsWhiteSpace (jsTrim (sanitizeName value)).data = false := tws
  have tsp2 : hasAdjacent isNameSpecial (jsTrim (sanitizeName value)).data = false := tsp
  simp [validateName, hne, h2, h50, hnonempty, hall, tws2, tsp2]

theorem sanitized_name_is_valid_witness :
    sanitizeName "  J0hn   --Paul's  " = " Jhn -Paul's " ∧
    validateName (sanitizeName "  J0hn   --Paul's  ") "First name" = none :=
  ⟨by decide, sanitized_name_is_valid "  J0hn   --Paul's  " "First name" (by decide)⟩

end TunnelServer
